import Mathlib

/-!
Shallow embedding of the TiKV member reconciliation engine
(`pkg/manager/member/tikv_nodeport_external_access.go` and
`pkg/apis/tikv/v1alpha1/component.go`) together with proofs of the
specification claims about it.

External collaborators (placement-service client, listers, the
sub-controller interfaces `Failover`/`Scaler`/`Upgrader`) are modelled as an
explicit environment value; the side effects of one `Sync` cycle are
recorded as an explicit action trace.
-/

deriving instance DecidableEq for Except

namespace TikvOperator

/-- Health/metadata record for one store, as kept in the cluster status
(`v1alpha1.TiKVStore`).  Times are modelled as naturals; `0` plays the role
of the zero time (`IsZero`). -/
structure TiKVStore where
  id : String
  podName : String
  ip : String
  leaderCount : Int
  state : String
  lastHeartbeatTime : Nat
  lastTransitionTime : Nat
  deriving Repr, DecidableEq

/-- `metapb.Store`: the placement service's record of a store. -/
structure MetaStore where
  id : Nat
  address : String
  stateName : String
  labels : List (String × String)
  deriving Repr, DecidableEq

/-- `pdapi.StoreStatus`: runtime status reported by the placement service. -/
structure PdStoreStatus where
  leaderCount : Int
  lastHeartbeatTS : Nat
  deriving Repr, DecidableEq

/-- `pdapi.StoreInfo`: a store listing entry; either component may be nil. -/
structure StoreInfo where
  store : Option MetaStore
  status : Option PdStoreStatus
  deriving Repr, DecidableEq

/-- `apps.StatefulSetStatus` restricted to the fields the engine reads. -/
structure StatefulSetStatusL where
  replicas : Nat
  readyReplicas : Nat
  currentRevision : String
  updateRevision : String
  deriving Repr, DecidableEq

/-- The empty status placeholder `&apps.StatefulSetStatus{}`. -/
def emptyStatefulSetStatus : StatefulSetStatusL :=
  { replicas := 0, readyReplicas := 0, currentRevision := "", updateRevision := "" }

structure ContainerL where
  name : String
  image : String
  deriving Repr, DecidableEq

/-- Pod template of a workload set, restricted to the fields the claims
observe: labels, the names of the config maps backing its volumes, and the
containers. -/
structure PodTemplateL where
  labels : List (String × String)
  configMapVolumes : List String
  containers : List ContainerL
  deriving Repr, DecidableEq

/-- `apps.StatefulSet` restricted to the fields the engine reads or writes:
name, last-applied-config annotation, replica count, rolling-update
partition, pod template and native status. -/
structure StatefulSetL where
  name : String
  ns : String
  lastApplied : Option String
  replicas : Nat
  rollingUpdatePartition : Nat
  template : PodTemplateL
  status : StatefulSetStatusL
  deriving Repr, DecidableEq

structure ConfigMapL where
  name : String
  ns : String
  labels : List (String × String)
  data : List (String × String)
  deriving Repr, DecidableEq

structure PortL where
  name : String
  port : Int
  nodePort : Int
  targetPort : Int
  protocol : String
  deriving Repr, DecidableEq

structure ServiceSpecL where
  selector : List (String × String)
  svcType : String
  ports : List PortL
  clusterIP : String
  externalIPs : List String
  publishNotReadyAddresses : Bool
  deriving Repr, DecidableEq

structure ServiceL where
  name : String
  ns : String
  labels : List (String × String)
  spec : ServiceSpecL
  lastApplied : Option String
  deriving Repr, DecidableEq

/-- `v1alpha1.TiKVFailureStore`: a failure record in the cluster status. -/
structure FailureStoreL where
  podName : String
  storeID : String
  createdAt : Nat
  deriving Repr, DecidableEq

structure PodL where
  name : String
  nodeName : String
  hostIP : String
  labels : List (String × String)
  deriving Repr, DecidableEq

/-- `v1alpha1.ExternalListenerConfig`. -/
structure ListenerL where
  name : String
  containerPort : Int
  externalStartingPort : Int
  accessMethod : String
  deriving Repr, DecidableEq

/-- TiKV component spec (`v1alpha1.TiKVSpec`), restricted to the
fields read by the member manager. -/
structure TiKVSpecL where
  replicas : Nat
  image : String
  requests : String
  config : Option String
  componentConfigUpdateStrategy : Option String
  maxFailoverCount : Option Nat
  externalListeners : List ListenerL
  deriving Repr, DecidableEq

/-- Cluster-level spec (`v1alpha1.TikvClusterSpec`) restricted to the fields
the claims observe. -/
structure ClusterSpecL where
  paused : Bool
  configUpdateStrategy : String
  tlsEnabled : Bool
  tikv : TiKVSpecL
  deriving Repr, DecidableEq

/-- `v1alpha1.TiKVStatus`. -/
structure TiKVStatusL where
  synced : Bool
  phase : String
  statefulSet : Option StatefulSetStatusL
  stores : List (String × TiKVStore)
  tombstoneStores : List (String × TiKVStore)
  failureStores : List (String × FailureStoreL)
  image : String
  deriving Repr, DecidableEq

/-- Cluster status (`v1alpha1.TikvClusterStatus`); `pdAvailable` models the
`PDIsAvailable()` predicate (bootstrap member availability, computed from
the PD status, not under src). -/
structure StatusL where
  pdPhase : String
  pdAvailable : Bool
  tikv : TiKVStatusL
  deriving Repr, DecidableEq

/-- `v1alpha1.TikvCluster`. -/
structure TikvCluster where
  name : String
  ns : String
  spec : ClusterSpecL
  status : StatusL
  deriving Repr, DecidableEq

/-! ### component.go: ConfigUpdateStrategy resolution -/

def ConfigUpdateStrategyInPlace : String := "InPlace"

def ConfigUpdateStrategyRollingUpdate : String := "RollingUpdate"

/-- `componentAccessorImpl.ConfigUpdateStrategy` (component.go lines
136-147): the component-level strategy, when set, overrides the
cluster-level one; an empty resolved strategy falls back to `InPlace`. -/
def ConfigUpdateStrategy (clusterStrategy : String) (componentStrategy : Option String) :
    String :=
  let strategy := match componentStrategy with
    | none => clusterStrategy
    | some s => s
  if strategy = "" then ConfigUpdateStrategyInPlace else strategy

/-- `tc.BaseTiKVSpec().ConfigUpdateStrategy()`: the accessor built from the
cluster spec and the TiKV component spec. -/
def TikvCluster.tikvConfigUpdateStrategy (tc : TikvCluster) : String :=
  ConfigUpdateStrategy tc.spec.configUpdateStrategy tc.spec.tikv.componentConfigUpdateStrategy

example : ConfigUpdateStrategy "" none = "InPlace" := by decide

example : ConfigUpdateStrategy "RollingUpdate" (some "InPlace") = "InPlace" := by decide

/-! ### Naming and label helpers

These correspond to helpers from `pkg/controller` and `pkg/label` that are
not under src; they are modelled from the spec's naming conventions
(member-name prefix, peer headless service, instance labels). -/

/-- Modelled from the spec: `controller.TiKVMemberName` (not in src), the
cluster's TiKV member-name prefix. -/
def tikvMemberName (clusterName : String) : String := clusterName ++ "-tikv"

/-- Modelled from the spec: `controller.TiKVPeerMemberName` (not in src). -/
def tikvPeerMemberName (clusterName : String) : String := clusterName ++ "-tikv-peer"

/-- Modelled from the spec: `controller.MemberConfigMapName` for the TiKV
member type (not in src). -/
def memberConfigMapName (clusterName : String) : String := tikvMemberName clusterName

/-- Modelled from the spec: `label.New().Instance(name).TiKV().Labels()`
(pkg/label, not in src) — the instance/component label set selecting this
cluster's TiKV pods. -/
def labelsTikv (instanceName : String) : List (String × String) :=
  [("app.kubernetes.io/name", "tikv-cluster"),
   ("app.kubernetes.io/managed-by", "tikv-operator"),
   ("app.kubernetes.io/instance", instanceName),
   ("app.kubernetes.io/component", "tikv")]

/-- Is the first character list a prefix of the second? -/
def listStartsWith : List Char → List Char → Bool
  | [], _ => true
  | _ :: _, [] => false
  | a :: as, b :: bs => a = b && listStartsWith as bs

/-- `strings.HasPrefix`, executable by kernel reduction. -/
def strStartsWith (s pre : String) : Bool := listStartsWith pre.toList s.toList

/-- The prefix of `s` up to (excluding) the first occurrence of `sep`:
`strings.Split(s, sep)[0]` for a one-character separator. -/
def takeUntilChar (sep : Char) (s : String) : String :=
  String.mk (s.toList.takeWhile (fun c => c ≠ sep))

/-- Go-map lookup on an association list. -/
def lookupKey {β : Type} : List (String × β) → String → Option β
  | [], _ => none
  | p :: rest, k => if p.fst = k then some p.snd else lookupKey rest k

/-- Remove every binding of `k`. -/
def eraseKey {β : Type} : List (String × β) → String → List (String × β)
  | [], _ => []
  | p :: rest, k => if p.fst = k then eraseKey rest k else p :: eraseKey rest k

/-- Go-map insertion on an association list: replaces any binding of `k`. -/
def insertEntry {β : Type} (m : List (String × β)) (k : String) (v : β) :
    List (String × β) :=
  (k, v) :: eraseKey m k

/-- Modelled from the spec: `MergeLabels` (member utils, not in src) —
right-biased union of two label maps. -/
def mergeLabels (base extra : List (String × String)) : List (String × String) :=
  extra.foldl (fun acc p => insertEntry acc p.fst p.snd) base

/-! ### The owned-address pattern

`tikvStoreLimitPattern = %s-tikv-\d+\.%s-tikv-peer\.%s\.svc\:\d+`
instantiated with (cluster name, cluster name, namespace) and matched
unanchored against a store's address (`pattern.Match`).  Every
metacharacter in the pattern besides the two `\d+` atoms is a literal, and
each `\d+` is followed by a non-digit literal (or the end of the pattern),
so existence of a match is decided by a greedy scan at every start
position. -/

/-- Consume the literal `lit` from the front of `cs`. -/
def matchLit : List Char → List Char → Option (List Char)
  | [], cs => some cs
  | _ :: _, [] => none
  | l :: ls, c :: cs => if c = l then matchLit ls cs else none

/-- Consume one or more digits (greedily) from the front of `cs`. -/
def matchDigits : List Char → Option (List Char)
  | [] => none
  | c :: cs => if c.isDigit then some (cs.dropWhile Char.isDigit) else none

/-- Match the instantiated store-address pattern at the current position. -/
def matchStoreAt (tcName ns : String) (cs : List Char) : Bool :=
  match matchLit (tcName ++ "-tikv-").toList cs with
  | none => false
  | some cs1 =>
    match matchDigits cs1 with
    | none => false
    | some cs2 =>
      match matchLit ("." ++ tcName ++ "-tikv-peer." ++ ns ++ ".svc:").toList cs2 with
      | none => false
      | some cs3 => (matchDigits cs3).isSome

/-- Does `p` hold of some suffix of the character list? (unanchored match) -/
def anySuffix (p : List Char → Bool) : List Char → Bool
  | [] => p []
  | c :: cs => p (c :: cs) || anySuffix p cs

/-- `pattern.Match([]byte(address))` for the compiled
`tikvStoreLimitPattern`. -/
def storeAddrMatches (tcName ns addr : String) : Bool :=
  anySuffix (matchStoreAt tcName ns) addr.toList

example :
    storeAddrMatches "basic" "default"
      "basic-tikv-0.basic-tikv-peer.default.svc:20160" = true := by decide

example :
    storeAddrMatches "basic" "default" "other-tikv-0.other-tikv-peer.default.svc:20160" =
      false := by decide

/-- The skip test of the store loops: `store.Store != nil &&
!pattern.Match([]byte(store.Store.Address))`. -/
def skipStore (tcName ns : String) (s : StoreInfo) : Bool :=
  match s.store with
  | some meta => ¬ storeAddrMatches tcName ns meta.address
  | none => false

/-! ### Store status conversion and merging (`syncTikvClusterStatus`) -/

/-- `tikvMemberManager.getTiKVStore` (lines 746-762): convert a placement
service listing entry to a status record; nil store or nil status yields
nil. -/
def getTiKVStore (s : StoreInfo) : Option TiKVStore :=
  match s.store, s.status with
  | some meta, some st =>
    let ip := takeUntilChar ':' meta.address
    let podName := takeUntilChar '.' ip
    some { id := toString meta.id
           podName := podName
           ip := ip
           leaderCount := st.leaderCount
           state := meta.stateName
           lastHeartbeatTime := st.lastHeartbeatTS
           lastTransitionTime := 0 }
  | _, _ => none

/-- The per-store merge of `syncTikvClusterStatus` (lines 700-714): carry
the previous heartbeat forward when the reported one is zero, and keep the
previous transition time exactly when the health state is unchanged. -/
def mergeStoreStatus (now : Nat) (previousStores : List (String × TiKVStore))
    (status : TiKVStore) : TiKVStore :=
  let status :=
    if status.lastHeartbeatTime = 0 then
      match lookupKey previousStores status.id with
      | some oldStatus => { status with lastHeartbeatTime := oldStatus.lastHeartbeatTime }
      | none => status
    else status
  match lookupKey previousStores status.id with
  | some oldStore =>
    if status.state = oldStore.state then
      { status with lastTransitionTime := oldStore.lastTransitionTime }
    else
      { status with lastTransitionTime := now }
  | none => { status with lastTransitionTime := now }

/-- The active-store loop of `syncTikvClusterStatus` (lines 690-716). -/
def buildStores (tcName ns : String) (now : Nat)
    (previousStores : List (String × TiKVStore)) :
    List StoreInfo → List (String × TiKVStore) → List (String × TiKVStore)
  | [], acc => acc
  | s :: rest, acc =>
    if skipStore tcName ns s then buildStores tcName ns now previousStores rest acc
    else
      match getTiKVStore s with
      | none => buildStores tcName ns now previousStores rest acc
      | some status =>
        let status := mergeStoreStatus now previousStores status
        buildStores tcName ns now previousStores rest (insertEntry acc status.id status)

/-- The tombstone-store loop of `syncTikvClusterStatus` (lines 724-733). -/
def buildTombstoneStores (tcName ns : String) :
    List StoreInfo → List (String × TiKVStore) → List (String × TiKVStore)
  | [], acc => acc
  | s :: rest, acc =>
    if skipStore tcName ns s then buildTombstoneStores tcName ns rest acc
    else
      match getTiKVStore s with
      | none => buildTombstoneStores tcName ns rest acc
      | some status => buildTombstoneStores tcName ns rest (insertEntry acc status.id status)

/-! ### The effect model -/

/-- Outcome of one call: success, the explicit "not ready" requeue signal
(`controller.RequeueErrorf`), or any other error. -/
inductive SyncResult where
  | ok
  | requeue
  | err
  deriving Repr, DecidableEq

/-- One externally visible side effect of a cycle. -/
inductive Action where
  | createStatefulSet (s : StatefulSetL)
  | updateStatefulSet (s : StatefulSetL)
  | createOrUpdateConfigMap (c : ConfigMapL)
  | createService (s : ServiceL)
  | updateService (s : ServiceL)
  | setStoreLabels (storeId : Nat) (labels : List (String × String))
  | upgrade
  | scale
  | failover
  | recover
  deriving Repr, DecidableEq

/-- Result of a service lookup through the service lister. -/
inductive SvcGetR where
  | found (s : ServiceL)
  | notFound
  | failed
  deriving Repr, DecidableEq

/-- The environment of one `Sync` call: cached lister reads, placement
service responses, and the results of the abstracted collaborator calls
(statefulset/service/configmap control, the `Failover`/`Scaler`/`Upgrader`
sub-controllers).  `recover` is the status effect of `Failover.Recover`
(implementation not under src). -/
structure Env where
  oldSetResult : Except Unit (Option StatefulSetL)
  tikvPodsList : Except Unit (List PodL)
  getStores : Except Unit (List StoreInfo)
  getTombStones : Except Unit (List StoreInfo)
  getConfigLocationLabels : Except Unit (Option (List String))
  pods : List (String × PodL)
  nodes : List (String × List (String × String))
  setStoreLabelsResult : Nat → List (String × String) → Except Unit Bool
  svcGet : String → SvcGetR
  createCmResult : Except Unit Unit
  createSetResult : Except Unit Unit
  updateSetResult : Except Unit Unit
  createSvcResult : Except Unit Unit
  updateSvcResult : Except Unit Unit
  upgradeResult : Except Unit Unit
  scaleResult : Except Unit Unit
  failoverResult : Except Unit Unit
  recover : TikvCluster → TikvCluster
  autoFailover : Bool
  now : Nat

/-- Result of a whole (sub-)cycle: outcome, the cluster object with its
status mutations, and the trace of externally visible effects. -/
structure Out where
  res : SyncResult
  tc : TikvCluster
  trace : List Action
  deriving Repr, DecidableEq

/-! ### `syncTikvClusterStatus` -/

/-- Modelled from the spec: `statefulSetIsUpgrading` (member utils, not in
src) — the workload set itself reports an in-flight rolling update. -/
def statefulSetIsUpgradingL (set : StatefulSetL) : Bool :=
  set.status.currentRevision ≠ set.status.updateRevision

def controllerRevisionHashLabelKey : String := "controller-revision-hash"

/-- The pod loop of `tikvStatefulSetIsUpgrading` (lines 880-888): a pod
without the revision-hash label yields false; a pod whose hash differs from
the recorded update revision yields true. -/
def podsRevisionDiffer (updateRevision : String) : List PodL → Bool
  | [] => false
  | p :: rest =>
    match lookupKey p.labels controllerRevisionHashLabelKey with
    | none => false
    | some h => if h ≠ updateRevision then true else podsRevisionDiffer updateRevision rest

/-- `tikvStatefulSetIsUpgrading` (lines 867-891). -/
def tikvStatefulSetIsUpgrading (env : Env) (set : StatefulSetL) (tc : TikvCluster) :
    Except Unit Bool :=
  if statefulSetIsUpgradingL set then .ok true
  else
    match env.tikvPodsList with
    | .error _ => .error ()
    | .ok pods =>
      let rev := match tc.status.tikv.statefulSet with
        | some st => st.updateRevision
        | none => ""
      .ok (podsRevisionDiffer rev pods)

/-- Record-update helper: replace the TiKV status. -/
def withTikvStatus (tc : TikvCluster) (s : TiKVStatusL) : TikvCluster :=
  { tc with status := { tc.status with tikv := s } }

/-- `tikvMemberManager.syncTikvClusterStatus` (lines 658-744): mirror the
observed workload status, derive the phase, fetch both store listings, and
only then commit the rebuilt store mappings; a fetch failure clears the
synced flag and aborts. -/
def syncTikvClusterStatus (env : Env) (tc : TikvCluster) (set : Option StatefulSetL) :
    SyncResult × TikvCluster :=
  match set with
  | none => (.ok, tc)
  | some set =>
    let tc := withTikvStatus tc { tc.status.tikv with statefulSet := some set.status }
    match tikvStatefulSetIsUpgrading env set tc with
    | .error _ => (.err, tc)
    | .ok upgrading =>
      let phase :=
        if upgrading ∧ tc.status.pdPhase ≠ "Upgrade" then "Upgrade" else "Normal"
      let tc := withTikvStatus tc { tc.status.tikv with phase := phase }
      let previousStores := tc.status.tikv.stores
      match env.getStores with
      | .error _ => (.err, withTikvStatus tc { tc.status.tikv with synced := false })
      | .ok storesInfo =>
        let stores := buildStores tc.name tc.ns env.now previousStores storesInfo []
        match env.getTombStones with
        | .error _ => (.err, withTikvStatus tc { tc.status.tikv with synced := false })
        | .ok tombInfo =>
          let tombstoneStores := buildTombstoneStores tc.name tc.ns tombInfo []
          let image :=
            match set.template.containers.find? (fun c => c.name = "tikv") with
            | some c => c.image
            | none => ""
          (.ok, withTikvStatus tc
            { tc.status.tikv with
              synced := true
              stores := stores
              tombstoneStores := tombstoneStores
              image := image })

/-! ### Config map synthesis (`getTikVConfigMap`, `syncTiKVConfigMap`) -/

/-- Modelled from the spec: `RenderTiKVStartScript` (template, not in src)
— the generated startup script, a pure function of the connection scheme. -/
def renderStartScript (tlsEnabled : Bool) : String :=
  if tlsEnabled then "start-script-https" else "start-script-http"

/-- Modelled from the spec: the content digest used by
`AddConfigMapDigestSuffix` (member utils, not in src) — an executable hash
of the config map's data. -/
def dataDigest (data : List (String × String)) : Nat :=
  data.foldl
    (fun h p =>
      (h * 31 +
        p.fst.toList.foldl (fun a c => (a * 131 + c.toNat) % 1000000007) 11 +
        p.snd.toList.foldl (fun a c => (a * 137 + c.toNat) % 1000000007) 13) % 1000000007)
    7

/-- Modelled from the spec: `AddConfigMapDigestSuffix` (member utils, not
in src) — append a content-addressed suffix to the config map's name. -/
def addConfigMapDigestSuffix (cm : ConfigMapL) : ConfigMapL :=
  { cm with name := cm.name ++ "-" ++ toString (dataDigest cm.data) }

/-- `getTikVConfigMap` (lines 612-651): render config text and start
script into a config map named after the member, digest-suffixed only
under the `RollingUpdate` strategy.  TOML marshalling is modelled as the
identity on the already-rendered config text. -/
def getTikVConfigMap (tc : TikvCluster) : Option ConfigMapL :=
  match tc.spec.tikv.config with
  | none => none
  | some confText =>
    let cm : ConfigMapL :=
      { name := tikvMemberName tc.name
        ns := tc.ns
        labels := labelsTikv tc.name
        data := [("config-file", confText),
                 ("startup-script", renderStartScript tc.spec.tlsEnabled)] }
    if tc.tikvConfigUpdateStrategy = ConfigUpdateStrategyRollingUpdate then
      some (addConfigMapDigestSuffix cm)
    else
      some cm

/-- Modelled from the spec: `FindConfigMapVolume` (member utils, not in
src) — the name of the first config-map-backed volume of the pod spec
whose config map name satisfies the predicate, or `""`. -/
def findConfigMapVolume (tmpl : PodTemplateL) (p : String → Bool) : String :=
  match tmpl.configMapVolumes.find? p with
  | some n => n
  | none => ""

/-- `tikvMemberManager.syncTiKVConfigMap` (lines 349-368): nothing to do
without a TiKV config; under the `InPlace` strategy an already-mounted
config map name with the member prefix is reused; finally the config map is
upserted. -/
def syncTiKVConfigMap (env : Env) (tc : TikvCluster) (set : Option StatefulSetL) :
    SyncResult × Option ConfigMapL × List Action :=
  match getTikVConfigMap tc with
  | none => (.ok, none, [])
  | some newCm =>
    let newCm :=
      match set with
      | some set =>
        if tc.tikvConfigUpdateStrategy = ConfigUpdateStrategyInPlace then
          let inUseName :=
            findConfigMapVolume set.template
              (fun name => strStartsWith name (tikvMemberName tc.name))
          if inUseName ≠ "" then { newCm with name := inUseName } else newCm
        else newCm
      | none => newCm
    match env.createCmResult with
    | .error _ => (.err, none, [.createOrUpdateConfigMap newCm])
    | .ok _ => (.ok, some newCm, [.createOrUpdateConfigMap newCm])

/-! ### Desired workload synthesis (`getNewTiKVSetForTikvCluster`) -/

/-- Modelled from the spec: `controller.ParseStorageRequest` (not in src)
— parse the declared storage quantity, failing on an unparsable value. -/
def parseStorageRequest (req : String) : Option Nat :=
  match req.toList with
  | [] => none
  | cs =>
    if cs.all Char.isDigit then
      some (cs.foldl (fun a c => a * 10 + (c.toNat - 48)) 0)
    else none

/-- Modelled from the spec: `tc.TiKVStsDesiredReplicas()` (types, not in
src) — the declared replica count plus one spare ordinal per failure
record. -/
def tikvStsDesiredReplicas (tc : TikvCluster) : Nat :=
  tc.spec.tikv.replicas + tc.status.tikv.failureStores.length

/-- Modelled from the spec: the serialized "last applied config" written by
`SetStatefulSetLastAppliedConfigAnnotation` (member utils, not in src). -/
def serializeSetSpec (s : StatefulSetL) : String :=
  s.name ++ "|" ++ toString s.replicas ++ "|" ++ toString s.rollingUpdatePartition

/-- Modelled from the spec: `SetStatefulSetLastAppliedConfigAnnotation`
(member utils, not in src). -/
def setStatefulSetLastApplied (s : StatefulSetL) : StatefulSetL :=
  { s with lastApplied := some (serializeSetSpec s) }

/-- `getNewTiKVSetForTikvCluster` (lines 405-597), restricted to the fields
the claims observe: the desired workload set, named after the member,
mounting the synthesized (or default-named) config map twice (config and
startup script volumes), with both the replica count and the rolling-update
partition set to the desired replica count.  Fails when the storage request
cannot be parsed. -/
def getNewTiKVSetForTikvCluster (tc : TikvCluster) (cm : Option ConfigMapL) :
    Except Unit StatefulSetL :=
  let tikvConfigMap :=
    match cm with
    | some c => c.name
    | none => memberConfigMapName tc.name
  match parseStorageRequest tc.spec.tikv.requests with
  | none => .error ()
  | some _ =>
    .ok
      { name := tikvMemberName tc.name
        ns := tc.ns
        lastApplied := none
        replicas := tikvStsDesiredReplicas tc
        rollingUpdatePartition := tikvStsDesiredReplicas tc
        template :=
          { labels := labelsTikv tc.name
            configMapVolumes := [tikvConfigMap, tikvConfigMap]
            containers := [{ name := "tikv", image := tc.spec.tikv.image }] }
        status := emptyStatefulSetStatus }

/-! ### Label propagation (`setStoreLabelsForTiKV`) -/

def labelHostname : String := "kubernetes.io/hostname"

/-- The label-selection loop of `getNodeLabels` (lines 834-850): restrict
the node's labels to the configured location label keys, with the legacy
`host` fallback to the platform hostname label. -/
def selectNodeLabels (ls : List (String × String)) :
    List String → List (String × String) → List (String × String)
  | [], acc => acc
  | storeLabel :: rest, acc =>
    match lookupKey ls storeLabel with
    | some value => selectNodeLabels ls rest (insertEntry acc storeLabel value)
    | none =>
      if storeLabel = "host" then
        match lookupKey ls labelHostname with
        | some host => selectNodeLabels ls rest (insertEntry acc storeLabel host)
        | none => selectNodeLabels ls rest acc
      else selectNodeLabels ls rest acc

/-- `tikvMemberManager.getNodeLabels` (lines 829-851): `none` models a node
lister error. -/
def getNodeLabels (env : Env) (nodeName : String) (storeLabels : List String) :
    Option (List (String × String)) :=
  match lookupKey env.nodes nodeName with
  | none => none
  | some ls => some (selectNodeLabels ls storeLabels [])

/-- Map equality of two association lists (the `reflect.DeepEqual` of two
Go maps, for lists without duplicate keys). -/
def mapsEqual (a b : List (String × String)) : Bool :=
  a.all (fun p => lookupKey b p.fst = some p.snd) ∧
    b.all (fun p => lookupKey a p.fst = some p.snd)

/-- `storeLabelsEqualNodeLabels` (lines 855-865): compare the store's
labels, restricted to keys known to the node, with the node labels. -/
def storeLabelsEqualNodeLabels (storeLabels nodeLabels : List (String × String)) : Bool :=
  let ls := storeLabels.foldl
    (fun acc p =>
      if (lookupKey nodeLabels p.fst).isSome then insertEntry acc p.fst p.snd else acc)
    []
  mapsEqual ls nodeLabels

/-- The store loop of `setStoreLabelsForTiKV` (lines 789-824).  A store
whose hosting pod cannot be resolved returns an error (aborting the loop);
missing node labels and failed label pushes skip the store.  Each attempted
push is recorded in the trace. -/
def setStoreLabelsLoop (env : Env) (tc : TikvCluster) (locationLabels : List String) :
    List StoreInfo → Nat → Except Unit Nat × List Action
  | [], setCount => (.ok setCount, [])
  | s :: rest, setCount =>
    if skipStore tc.name tc.ns s then
      setStoreLabelsLoop env tc locationLabels rest setCount
    else
      match getTiKVStore s, s.store with
      | some status, some meta =>
        (match lookupKey env.pods status.podName with
         | none => (.error (), [])
         | some pod =>
           match getNodeLabels env pod.nodeName locationLabels with
           | none => setStoreLabelsLoop env tc locationLabels rest setCount
           | some ls =>
             if ls.isEmpty then setStoreLabelsLoop env tc locationLabels rest setCount
             else if storeLabelsEqualNodeLabels meta.labels ls then
               setStoreLabelsLoop env tc locationLabels rest setCount
             else
               match env.setStoreLabelsResult meta.id ls with
               | .error _ =>
                 let (r, tr) := setStoreLabelsLoop env tc locationLabels rest setCount
                 (r, .setStoreLabels meta.id ls :: tr)
               | .ok set =>
                 let (r, tr) :=
                   setStoreLabelsLoop env tc locationLabels rest
                     (if set then setCount + 1 else setCount)
                 (r, .setStoreLabels meta.id ls :: tr))
      | _, _ => setStoreLabelsLoop env tc locationLabels rest setCount

/-- `tikvMemberManager.setStoreLabelsForTiKV` (lines 764-827). -/
def setStoreLabelsForTiKV (env : Env) (tc : TikvCluster) :
    Except Unit Nat × List Action :=
  match env.getStores with
  | .error _ => (.error (), [])
  | .ok storesInfo =>
    match env.getConfigLocationLabels with
    | .error _ => (.error (), [])
    | .ok none => (.ok 0, [])
    | .ok (some locationLabels) => setStoreLabelsLoop env tc locationLabels storesInfo 0

/-! ### Statefulset orchestration (`syncStatefulSetForTikvCluster`) -/

/-- Modelled from the spec: `templateEqual` (member utils, not in src) —
the desired pod template equals the observed one (replica count is not
part of the template). -/
def templateEqual (newSet oldSet : StatefulSetL) : Bool :=
  newSet.template = oldSet.template

/-- Modelled from the spec: `tc.TiKVAllPodsStarted()` (types, not in src)
— every desired replica has started, judged from the workload status
mirror. -/
def tiKVAllPodsStarted (tc : TikvCluster) : Bool :=
  match tc.status.tikv.statefulSet with
  | some st => st.replicas = tikvStsDesiredReplicas tc
  | none => false

/-- Modelled from the spec: `tc.TiKVAllStoresReady()` (types, not in src)
— the store count matches the desired replica count and every store is
`Up`. -/
def tiKVAllStoresReady (tc : TikvCluster) : Bool :=
  tc.status.tikv.stores.length = tikvStsDesiredReplicas tc ∧
    tc.status.tikv.stores.all (fun p => p.snd.state = "Up")

/-- Semantic equality of two workload sets: the fields the controller
manages (replica count, rolling-update partition, pod template). -/
def statefulSetSpecEqual (a b : StatefulSetL) : Bool :=
  a.replicas = b.replicas ∧ a.rollingUpdatePartition = b.rollingUpdatePartition ∧
    a.template = b.template

/-- Modelled from the spec: the `updateStatefulSet` upsert helper (member
utils, not in src) — if the observed spec differs semantically from the
desired one, apply the desired managed fields onto a copy of the observed
object, annotate the last applied config, and submit the update; otherwise
no-op. -/
def mergedSet (newSet oldSet : StatefulSetL) : StatefulSetL :=
  setStatefulSetLastApplied
    { oldSet with
      replicas := newSet.replicas
      rollingUpdatePartition := newSet.rollingUpdatePartition
      template := newSet.template }

def updateStatefulSetL (env : Env) (tc : TikvCluster) (newSet oldSet : StatefulSetL)
    (base : List Action) : Out :=
  if statefulSetSpecEqual newSet oldSet then ⟨.ok, tc, base⟩
  else
    match env.updateSetResult with
    | .error _ => ⟨.err, tc, base ++ [.updateStatefulSet (mergedSet newSet oldSet)]⟩
    | .ok _ => ⟨.ok, tc, base ++ [.updateStatefulSet (mergedSet newSet oldSet)]⟩

/-- Steps of `syncStatefulSetForTikvCluster` from the scaler onward (lines
334-346): always scale, then conditional failover detection, then the
final upsert. -/
def syncSetScaleOnward (env : Env) (tc : TikvCluster) (newSet oldSet : StatefulSetL)
    (base : List Action) : Out :=
  match env.scaleResult with
  | .error _ => ⟨.err, tc, base ++ [.scale]⟩
  | .ok _ =>
    let base := base ++ [Action.scale]
    if env.autoFailover ∧ tc.spec.tikv.maxFailoverCount ≠ none ∧
        tiKVAllPodsStarted tc ∧ ¬ tiKVAllStoresReady tc then
      match env.failoverResult with
      | .error _ => ⟨.err, tc, base ++ [.failover]⟩
      | .ok _ => updateStatefulSetL env tc newSet oldSet (base ++ [.failover])
    else updateStatefulSetL env tc newSet oldSet base

/-- Steps of `syncStatefulSetForTikvCluster` from the upgrader onward
(lines 328-346): drive the upgrader when the template changed or the phase
is already `Upgrade`, then continue with scaling. -/
def syncSetUpgradeOnward (env : Env) (tc : TikvCluster) (newSet oldSet : StatefulSetL)
    (base : List Action) : Out :=
  if ¬ templateEqual newSet oldSet ∨ tc.status.tikv.phase = "Upgrade" then
    match env.upgradeResult with
    | .error _ => ⟨.err, tc, base ++ [.upgrade]⟩
    | .ok _ => syncSetScaleOnward env tc newSet oldSet (base ++ [.upgrade])
  else syncSetScaleOnward env tc newSet oldSet base

/-- Lines 302-305: run failover recovery when any failure record exists. -/
def recoverIfNeeded (env : Env) (tc : TikvCluster) : TikvCluster :=
  if tc.status.tikv.failureStores.isEmpty then tc else env.recover tc

/-- Lines 307-346 of `syncStatefulSetForTikvCluster`: synthesize the
desired workload set from the (possibly recovered) cluster; either create
it and stop (bootstrap) or run labels → upgrade → scale → failover →
upsert. -/
def syncSetPostRecover (env : Env) (tc2 : TikvCluster) (cm : Option ConfigMapL)
    (oldSetOpt : Option StatefulSetL) (base : List Action) : Out :=
  match getNewTiKVSetForTikvCluster tc2 cm with
  | .error _ => ⟨.err, tc2, base⟩
  | .ok newSet =>
    match oldSetOpt with
    | none =>
      let annSet := setStatefulSetLastApplied newSet
      match env.createSetResult with
      | .error _ => ⟨.err, tc2, base ++ [.createStatefulSet annSet]⟩
      | .ok _ =>
        ⟨.ok,
          withTikvStatus tc2
            { tc2.status.tikv with statefulSet := some emptyStatefulSetStatus },
          base ++ [.createStatefulSet annSet]⟩
    | some oldSet =>
      match setStoreLabelsForTiKV env tc2 with
      | (.error _, lblTrace) => ⟨.err, tc2, base ++ lblTrace⟩
      | (.ok _, lblTrace) =>
        syncSetUpgradeOnward env tc2 newSet oldSet (base ++ lblTrace)

/-- `tikvMemberManager.syncStatefulSetForTikvCluster` (lines 276-347). -/
def syncStatefulSetForTikvCluster (env : Env) (tc0 : TikvCluster) : Out :=
  match env.oldSetResult with
  | .error _ => ⟨.err, tc0, []⟩
  | .ok oldSetOpt =>
    let st := syncTikvClusterStatus env tc0 oldSetOpt
    if st.fst = .err then ⟨.err, st.snd, []⟩
    else
      let tc1 := st.snd
      if tc1.spec.paused then ⟨.ok, tc1, []⟩
      else
        match syncTiKVConfigMap env tc1 oldSetOpt with
        | (.err, _, cmTrace) => ⟨.err, tc1, cmTrace⟩
        | (_, cm, cmTrace) =>
          let recTrace :=
            if tc1.status.tikv.failureStores.isEmpty then ([] : List Action)
            else [Action.recover]
          syncSetPostRecover env (recoverIfNeeded env tc1) cm oldSetOpt
            (cmTrace ++ recTrace)

/-! ### Services and the top-level `Sync` -/

def podNameLabelKey : String := "statefulset.kubernetes.io/pod-name"

/-- Modelled from the spec: `label.New().Instance(name).PD().Labels()`
(pkg/label, not in src). -/
def labelsPD (instanceName : String) : List (String × String) :=
  [("app.kubernetes.io/name", "tikv-cluster"),
   ("app.kubernetes.io/managed-by", "tikv-operator"),
   ("app.kubernetes.io/instance", instanceName),
   ("app.kubernetes.io/component", "pd")]

/-- `getNewNodeportServiceForTikvCluster` (lines 14-74): a per-pod NodePort
service for one external listener. -/
def getNewNodeportServiceForTikvCluster (tc : TikvCluster) (id : Nat)
    (extListener : ListenerL) (nodePortExternalIP : String) (isPD : Bool) : ServiceL :=
  let nodePort : Int :=
    if extListener.externalStartingPort > 0 then
      extListener.externalStartingPort + (id : Int)
    else 0
  if isPD then
    let lbPD := labelsPD tc.name
    let podLabel := [(podNameLabelKey, "basic-pd-" ++ toString id)]
    { name := tc.name ++ "-pb-" ++ toString id ++ "-" ++ extListener.name
      ns := tc.ns
      labels := mergeLabels lbPD podLabel
      spec :=
        { selector := mergeLabels lbPD podLabel
          svcType := "NodePort"
          ports := [{ name := tc.name ++ "-" ++ toString id ++ "-" ++ extListener.name
                      port := extListener.containerPort
                      nodePort := nodePort
                      targetPort := 2380
                      protocol := "TCP" }]
          clusterIP := ""
          externalIPs := [nodePortExternalIP]
          publishNotReadyAddresses := false }
      lastApplied := none }
  else
    let podLabel := [(podNameLabelKey, "basic-tikv-" ++ toString id)]
    { name := tc.name ++ "-tikv-" ++ toString id ++ "-" ++ extListener.name
      ns := tc.ns
      labels := mergeLabels (labelsTikv tc.name) podLabel
      spec :=
        { selector := mergeLabels (labelsTikv tc.name) podLabel
          svcType := "NodePort"
          ports := [{ name := tc.name ++ "-" ++ toString id ++ "-" ++ extListener.name
                      port := extListener.containerPort
                      nodePort := nodePort
                      targetPort := 20160
                      protocol := "TCP" }]
          clusterIP := ""
          externalIPs := [nodePortExternalIP]
          publishNotReadyAddresses := false }
      lastApplied := none }

/-- `SvcConfig` (lines 172-179); the label-transformer field is specialized
to the TiKV label at the only call site. -/
structure SvcConfigL where
  name : String
  port : Int
  headless : Bool
  memberName : String → String

/-- The peer-service config of `Sync` (lines 215-221). -/
def peerSvcConfig : SvcConfigL :=
  { name := "peer", port := 20160, headless := true, memberName := tikvPeerMemberName }

/-- `getNewServiceForTikvCluster` (lines 370-403). -/
def getNewServiceForTikvCluster (tc : TikvCluster) (svcConfig : SvcConfigL) : ServiceL :=
  let svcName := svcConfig.memberName tc.name
  let svcLabel := labelsTikv tc.name
  let spec0 : ServiceSpecL :=
    { selector := svcLabel
      svcType := ""
      ports := [{ name := svcConfig.name
                  port := svcConfig.port
                  nodePort := 0
                  targetPort := svcConfig.port
                  protocol := "TCP" }]
      clusterIP := ""
      externalIPs := []
      publishNotReadyAddresses := true }
  let spec :=
    if svcConfig.headless then { spec0 with clusterIP := "None" }
    else { spec0 with svcType := "ClusterIP" }
  { name := svcName, ns := tc.ns, labels := svcLabel, spec := spec, lastApplied := none }

/-- Modelled from the spec: the serialized "last applied config" written by
`SetServiceLastAppliedConfigAnnotation` (pkg/controller, not in src). -/
def serializeServiceSpec (s : ServiceSpecL) : String :=
  s.svcType ++ "|" ++ s.clusterIP ++ "|" ++
    (s.ports.foldl (fun a p => a ++ p.name ++ ";" ++ toString p.port ++ ",") "") ++ "|" ++
    s.externalIPs.foldl (fun a ip => a ++ ip ++ ",") ""

/-- Modelled from the spec: `controller.ServiceEqual` (not in src) —
semantic equality of desired and observed service, ignoring the
server-assigned cluster IP. -/
def serviceEqual (newSvc oldSvc : ServiceL) : Bool :=
  { newSvc.spec with clusterIP := oldSvc.spec.clusterIP } = oldSvc.spec

/-- `tikvMemberManager.syncServiceForTikvCluster` (lines 234-274). -/
def syncServiceForTikvCluster (env : Env) (tc : TikvCluster) (newSvc : ServiceL) :
    SyncResult × List Action :=
  if tc.spec.paused then (.ok, [])
  else
    match env.svcGet newSvc.name with
    | .failed => (.err, [])
    | .notFound =>
      let annSvc := { newSvc with lastApplied := some (serializeServiceSpec newSvc.spec) }
      match env.createSvcResult with
      | .error _ => (.err, [.createService annSvc])
      | .ok _ => (.ok, [.createService annSvc])
    | .found oldSvc =>
      if serviceEqual newSvc oldSvc then (.ok, [])
      else
        let svc1 := { oldSvc with spec := newSvc.spec }
        let svc2 := { svc1 with lastApplied := some (serializeServiceSpec svc1.spec) }
        let svc := { svc2 with spec := { svc2.spec with clusterIP := oldSvc.spec.clusterIP } }
        match env.updateSvcResult with
        | .error _ => (.err, [.updateService svc])
        | .ok _ => (.ok, [.updateService svc])

/-- The per-listener service synthesis of `Sync` (lines 195-213). -/
def listenerSvcs (tc : TikvCluster) (eListener : ListenerL) (pods : List PodL) :
    List ServiceL :=
  pods.enum.map
    (fun p => getNewNodeportServiceForTikvCluster tc p.fst eListener p.snd.hostIP false)

/-- The external-listener loop of `Sync` (lines 195-213). -/
def listenersSvcs (env : Env) (tc : TikvCluster) :
    List ListenerL → Except Unit (List ServiceL)
  | [] => .ok []
  | l :: rest =>
    if l.accessMethod = "NodePort" then
      match env.tikvPodsList with
      | .error _ => .error ()
      | .ok pods =>
        match listenersSvcs env tc rest with
        | .error _ => .error ()
        | .ok others => .ok (listenerSvcs tc l pods ++ others)
    else listenersSvcs env tc rest

/-- The service-sync loop of `Sync` (lines 225-229). -/
def syncServices (env : Env) (tc : TikvCluster) :
    List ServiceL → List Action → Out
  | [], tr => ⟨.ok, tc, tr⟩
  | s :: rest, tr =>
    match syncServiceForTikvCluster env tc s with
    | (.ok, str) => syncServices env tc rest (tr ++ str)
    | (r, str) => ⟨r, tc, tr ++ str⟩

/-- Modelled from the spec: `tc.PDIsAvailable()` (types, not in src) — the
placement service's bootstrap member is available. -/
def pdIsAvailable (tc : TikvCluster) : Bool := tc.status.pdAvailable

/-- `tikvMemberManager.Sync` (lines 182-232). -/
def Sync (env : Env) (tc : TikvCluster) : Out :=
  if ¬ pdIsAvailable tc then ⟨.requeue, tc, []⟩
  else
    let o := syncStatefulSetForTikvCluster env tc
    if o.res ≠ .ok then o
    else
      match listenersSvcs env o.tc tc.spec.tikv.externalListeners with
      | .error _ => ⟨.err, o.tc, o.trace⟩
      | .ok extSvcs =>
        let svcList := extSvcs ++ [getNewServiceForTikvCluster o.tc peerSvcConfig]
        syncServices env o.tc svcList o.trace

/-! ### Concrete fixtures -/

/-- A fully healthy environment with no stores, no pods, no services. -/
def envBase : Env :=
  { oldSetResult := .ok none
    tikvPodsList := .ok []
    getStores := .ok []
    getTombStones := .ok []
    getConfigLocationLabels := .ok none
    pods := []
    nodes := []
    setStoreLabelsResult := fun _ _ => .ok true
    svcGet := fun _ => .notFound
    createCmResult := .ok ()
    createSetResult := .ok ()
    updateSetResult := .ok ()
    createSvcResult := .ok ()
    updateSvcResult := .ok ()
    upgradeResult := .ok ()
    scaleResult := .ok ()
    failoverResult := .ok ()
    recover := fun tc => tc
    autoFailover := false
    now := 100 }

/-- A cluster named `basic` in namespace `default` asking for three
replicas and no explicit TiKV config. -/
def tcBase : TikvCluster :=
  { name := "basic"
    ns := "default"
    spec :=
      { paused := false
        configUpdateStrategy := ""
        tlsEnabled := false
        tikv :=
          { replicas := 3
            image := "tikv:v4"
            requests := "100"
            config := none
            componentConfigUpdateStrategy := none
            maxFailoverCount := none
            externalListeners := [] } }
    status :=
      { pdPhase := "Normal"
        pdAvailable := true
        tikv :=
          { synced := false
            phase := "Normal"
            statefulSet := none
            stores := []
            tombstoneStores := []
            failureStores := []
            image := "" } } }

/-- The workload set `getNewTiKVSetForTikvCluster` synthesizes for
`tcBase` with no config map. -/
def newSetBase : StatefulSetL :=
  { name := "basic-tikv"
    ns := "default"
    lastApplied := none
    replicas := 3
    rollingUpdatePartition := 3
    template :=
      { labels := labelsTikv "basic"
        configMapVolumes := ["basic-tikv", "basic-tikv"]
        containers := [{ name := "tikv", image := "tikv:v4" }] }
    status := emptyStatefulSetStatus }

example : getNewTiKVSetForTikvCluster tcBase none = .ok newSetBase := by decide

example : (syncStatefulSetForTikvCluster envBase tcBase).res = .ok := by decide

example :
    (syncStatefulSetForTikvCluster envBase tcBase).trace =
      [.createStatefulSet (setStatefulSetLastApplied newSetBase)] := by decide

example : (Sync envBase tcBase).res = .ok := by decide

/-! ### Association-list lemmas -/

theorem lookupKey_eraseKey_ne {β : Type} (m : List (String × β)) (k kq : String)
    (h : k ≠ kq) :
    lookupKey (eraseKey m k) kq = lookupKey m kq := by
  induction m with
  | nil => rfl
  | cons p rest ih =>
    unfold eraseKey
    by_cases hp : p.fst = k
    · rw [if_pos hp, ih]
      have hpk : p.fst ≠ kq := by rw [hp]; exact h
      conv_rhs => rw [lookupKey]
      rw [if_neg hpk]
    · rw [if_neg hp]
      unfold lookupKey
      by_cases hk : p.fst = kq
      · rw [if_pos hk, if_pos hk]
      · rw [if_neg hk, if_neg hk]
        exact ih

theorem lookupKey_insertEntry {β : Type} (m : List (String × β)) (k kq : String) (v : β) :
    lookupKey (insertEntry m k v) kq = if k = kq then some v else lookupKey m kq := by
  show (if k = kq then some v else lookupKey (eraseKey m k) kq) =
    if k = kq then some v else lookupKey m kq
  by_cases h : k = kq
  · rw [if_pos h, if_pos h]
  · rw [if_neg h, if_neg h]
    exact lookupKey_eraseKey_ne m k kq h

/-! ### `mergeStoreStatus` lemmas -/

/-- Normal form of the per-store merge: a single case split on the
previous record. -/
theorem mergeStoreStatus_eq (now : Nat) (prev : List (String × TiKVStore))
    (st : TiKVStore) :
    mergeStoreStatus now prev st =
      match lookupKey prev st.id with
      | some old =>
        { st with
          lastHeartbeatTime :=
            if st.lastHeartbeatTime = 0 then old.lastHeartbeatTime
            else st.lastHeartbeatTime
          lastTransitionTime :=
            if st.state = old.state then old.lastTransitionTime else now }
      | none => { st with lastTransitionTime := now } := by
  unfold mergeStoreStatus
  cases hl : lookupKey prev st.id with
  | none =>
    by_cases hz : st.lastHeartbeatTime = 0 <;> simp [hz, hl]
  | some old =>
    by_cases hz : st.lastHeartbeatTime = 0
    · simp only [hz, ite_true, hl]
      split <;> simp_all
    · simp only [hz, ite_false, hl]
      split <;> simp_all

theorem mergeStoreStatus_id (now : Nat) (prev : List (String × TiKVStore))
    (st : TiKVStore) : (mergeStoreStatus now prev st).id = st.id := by
  rw [mergeStoreStatus_eq]
  cases lookupKey prev st.id <;> rfl

theorem mergeStoreStatus_state (now : Nat) (prev : List (String × TiKVStore))
    (st : TiKVStore) : (mergeStoreStatus now prev st).state = st.state := by
  rw [mergeStoreStatus_eq]
  cases lookupKey prev st.id <;> rfl

theorem mergeStoreStatus_heartbeat_carry (now : Nat)
    (prev : List (String × TiKVStore)) (st old : TiKVStore)
    (hl : lookupKey prev st.id = some old) (hz : st.lastHeartbeatTime = 0) :
    (mergeStoreStatus now prev st).lastHeartbeatTime = old.lastHeartbeatTime := by
  rw [mergeStoreStatus_eq, hl]
  simp [hz]

theorem mergeStoreStatus_heartbeat_nonzero (now : Nat)
    (prev : List (String × TiKVStore)) (st old : TiKVStore)
    (hl : lookupKey prev st.id = some old) (h : old.lastHeartbeatTime ≠ 0) :
    (mergeStoreStatus now prev st).lastHeartbeatTime ≠ 0 := by
  rw [mergeStoreStatus_eq, hl]
  by_cases hz : st.lastHeartbeatTime = 0 <;> simp [hz, h]

theorem mergeStoreStatus_transition_known (now : Nat)
    (prev : List (String × TiKVStore)) (st old : TiKVStore)
    (hl : lookupKey prev st.id = some old) :
    (mergeStoreStatus now prev st).lastTransitionTime =
      if st.state = old.state then old.lastTransitionTime else now := by
  rw [mergeStoreStatus_eq, hl]

theorem mergeStoreStatus_transition_new (now : Nat)
    (prev : List (String × TiKVStore)) (st : TiKVStore)
    (hl : lookupKey prev st.id = none) :
    (mergeStoreStatus now prev st).lastTransitionTime = now := by
  rw [mergeStoreStatus_eq, hl]

/-! ### `buildStores` characterization -/

theorem buildStores_lookup_spec (tcName ns : String) (now : Nat)
    (prev : List (String × TiKVStore)) (l : List StoreInfo)
    (acc : List (String × TiKVStore)) (id : String) (v : TiKVStore)
    (h : lookupKey (buildStores tcName ns now prev l acc) id = some v) :
    (∃ s ∈ l, ∃ st, getTiKVStore s = some st ∧ st.id = id ∧
      v = mergeStoreStatus now prev st) ∨ lookupKey acc id = some v := by
  induction l generalizing acc with
  | nil => right; exact h
  | cons s rest ih =>
    unfold buildStores at h
    by_cases hskip : skipStore tcName ns s = true
    · simp only [hskip, ite_true] at h
      rcases ih _ h with ⟨s1, hs1, st, hst⟩ | hacc
      · exact Or.inl ⟨s1, List.mem_cons_of_mem _ hs1, st, hst⟩
      · exact Or.inr hacc
    · simp only [Bool.not_eq_true] at hskip
      simp only [hskip, Bool.false_eq_true, ite_false] at h
      cases hget : getTiKVStore s with
      | none =>
        rw [hget] at h
        rcases ih _ h with ⟨s1, hs1, st, hst⟩ | hacc
        · exact Or.inl ⟨s1, List.mem_cons_of_mem _ hs1, st, hst⟩
        · exact Or.inr hacc
      | some st =>
        rw [hget] at h
        rcases ih _ h with ⟨s1, hs1, st1, hst1⟩ | hacc
        · exact Or.inl ⟨s1, List.mem_cons_of_mem _ hs1, st1, hst1⟩
        · rw [lookupKey_insertEntry] at hacc
          by_cases hid : (mergeStoreStatus now prev st).id = id
          · rw [if_pos hid] at hacc
            refine Or.inl ⟨s, List.mem_cons_self _ _, st, hget, ?_, ?_⟩
            · rw [← mergeStoreStatus_id now prev st]; exact hid
            · exact (Option.some.injEq _ _ ▸ hacc).symm
          · rw [if_neg hid] at hacc
            exact Or.inr hacc

/-! ### Inversion of a successful status sync -/

theorem syncTikvClusterStatus_ok_inv (env : Env) (tc : TikvCluster)
    (set : StatefulSetL) (tcR : TikvCluster)
    (h : syncTikvClusterStatus env tc (some set) = (.ok, tcR)) :
    ∃ sl tl,
      env.getStores = .ok sl ∧ env.getTombStones = .ok tl ∧
      tcR.status.tikv.stores =
        buildStores tc.name tc.ns env.now tc.status.tikv.stores sl [] ∧
      tcR.status.tikv.tombstoneStores = buildTombstoneStores tc.name tc.ns tl [] ∧
      tcR.status.tikv.synced = true ∧
      tcR.status.tikv.statefulSet = some set.status := by
  simp only [syncTikvClusterStatus] at h
  cases hu : tikvStatefulSetIsUpgrading env set
      (withTikvStatus tc { tc.status.tikv with statefulSet := some set.status }) with
  | error e => rw [hu] at h; simp at h
  | ok upgrading =>
    rw [hu] at h
    cases hs : env.getStores with
    | error e => rw [hs] at h; simp [withTikvStatus] at h
    | ok sl =>
      rw [hs] at h
      cases ht : env.getTombStones with
      | error e => rw [ht] at h; simp [withTikvStatus] at h
      | ok tl =>
        rw [ht] at h
        simp only [Prod.mk.injEq] at h
        obtain ⟨-, h2⟩ := h
        subst h2
        exact ⟨sl, tl, rfl, rfl, by simp [withTikvStatus], by simp [withTikvStatus],
          by simp [withTikvStatus], by simp [withTikvStatus]⟩

/-- C3: a failed store-listing fetch (active or tombstoned) marks the
cluster unsynced and aborts the status update, leaving both recorded store
mappings untouched. -/
theorem statusSync_fetch_failure_aborts_without_store_writes (env : Env)
    (tc : TikvCluster) (set : StatefulSetL) (u : Bool)
    (hup : tikvStatefulSetIsUpgrading env set
      (withTikvStatus tc { tc.status.tikv with statefulSet := some set.status }) = .ok u)
    (hfail : env.getStores = .error () ∨
      (∃ sl, env.getStores = .ok sl ∧ env.getTombStones = .error ())) :
    (syncTikvClusterStatus env tc (some set)).fst = .err ∧
    (syncTikvClusterStatus env tc (some set)).snd.status.tikv.synced = false ∧
    (syncTikvClusterStatus env tc (some set)).snd.status.tikv.stores =
      tc.status.tikv.stores ∧
    (syncTikvClusterStatus env tc (some set)).snd.status.tikv.tombstoneStores =
      tc.status.tikv.tombstoneStores := by
  rcases hfail with hf | ⟨sl, hsl, hf⟩
  · simp only [syncTikvClusterStatus]
    rw [hup, hf]
    simp [withTikvStatus]
  · simp only [syncTikvClusterStatus]
    rw [hup, hsl, hf]
    simp [withTikvStatus]

/-! Fixtures for the status-sync witnesses: one owned store with recorded
heartbeat 77 whose current listing reports a zero heartbeat. -/

def storeInfo1 : StoreInfo :=
  { store := some
      { id := 1
        address := "basic-tikv-0.basic-tikv-peer.default.svc:20160"
        stateName := "Up"
        labels := [] }
    status := some { leaderCount := 5, lastHeartbeatTS := 0 } }

def oldStore1 : TiKVStore :=
  { id := "1"
    podName := "basic-tikv-0"
    ip := "basic-tikv-0.basic-tikv-peer.default.svc"
    leaderCount := 3
    state := "Up"
    lastHeartbeatTime := 77
    lastTransitionTime := 42 }

def stReported : TiKVStore :=
  { id := "1"
    podName := "basic-tikv-0"
    ip := "basic-tikv-0.basic-tikv-peer.default.svc"
    leaderCount := 5
    state := "Up"
    lastHeartbeatTime := 0
    lastTransitionTime := 0 }

example : getTiKVStore storeInfo1 = some stReported := by decide

def tcC7 : TikvCluster :=
  { tcBase with
    status :=
      { tcBase.status with
        tikv := { tcBase.status.tikv with stores := [("1", oldStore1)] } } }

def envC7 : Env := { envBase with getStores := .ok [storeInfo1] }

def tcRC7 : TikvCluster := (syncTikvClusterStatus envC7 tcC7 (some newSetBase)).snd

def vMergedC7 : TiKVStore := mergeStoreStatus envC7.now tcC7.status.tikv.stores stReported

def envC3 : Env := { envBase with getStores := .error () }

/-- Witness for `statusSync_fetch_failure_aborts_without_store_writes`. -/
theorem statusSync_fetch_failure_witness :
    (syncTikvClusterStatus envC3 tcC7 (some newSetBase)).fst = .err ∧
    (syncTikvClusterStatus envC3 tcC7 (some newSetBase)).snd.status.tikv.synced = false ∧
    (syncTikvClusterStatus envC3 tcC7 (some newSetBase)).snd.status.tikv.stores =
      tcC7.status.tikv.stores ∧
    (syncTikvClusterStatus envC3 tcC7 (some newSetBase)).snd.status.tikv.tombstoneStores =
      tcC7.status.tikv.tombstoneStores :=
  statusSync_fetch_failure_aborts_without_store_writes envC3 tcC7 newSetBase false
    (by decide) (Or.inl rfl)

/-- C7: for every owned store present in the previous cycle's mapping, a
zero reported heartbeat keeps the previously recorded heartbeat value
unchanged, and across one successful status sync a recorded heartbeat
never regresses to the zero time once observed non-zero. -/
theorem heartbeat_non_regression (env : Env) (tc : TikvCluster) (set : StatefulSetL)
    (tcR : TikvCluster)
    (h : syncTikvClusterStatus env tc (some set) = (.ok, tcR)) :
    (∀ st old, lookupKey tc.status.tikv.stores st.id = some old →
      st.lastHeartbeatTime = 0 →
      (mergeStoreStatus env.now tc.status.tikv.stores st).lastHeartbeatTime =
        old.lastHeartbeatTime) ∧
    (∀ id v old, lookupKey tcR.status.tikv.stores id = some v →
      lookupKey tc.status.tikv.stores id = some old →
      old.lastHeartbeatTime ≠ 0 → v.lastHeartbeatTime ≠ 0) := by
  constructor
  · intro st old hl hz
    exact mergeStoreStatus_heartbeat_carry env.now tc.status.tikv.stores st old hl hz
  · intro id v old hv hold hnz
    obtain ⟨sl, tl, hs, ht, hstores, -, -, -⟩ := syncTikvClusterStatus_ok_inv env tc set tcR h
    rw [hstores] at hv
    rcases buildStores_lookup_spec _ _ _ _ _ _ _ _ hv with
      ⟨s, hsmem, st, hget, hid, hveq⟩ | hacc
    · subst hveq
      have hl : lookupKey tc.status.tikv.stores st.id = some old := by rw [hid]; exact hold
      exact mergeStoreStatus_heartbeat_nonzero env.now tc.status.tikv.stores st old hl hnz
    · simp [lookupKey] at hacc

/-- Witness for `heartbeat_non_regression`: store `1` reports heartbeat 0;
the recorded value 77 is retained. -/
theorem heartbeat_non_regression_witness :
    (mergeStoreStatus envC7.now tcC7.status.tikv.stores stReported).lastHeartbeatTime =
      oldStore1.lastHeartbeatTime ∧
    vMergedC7.lastHeartbeatTime ≠ 0 :=
  ⟨(heartbeat_non_regression envC7 tcC7 newSetBase tcRC7 (by decide)).1 stReported oldStore1
      (by decide) (by decide),
   (heartbeat_non_regression envC7 tcC7 newSetBase tcRC7 (by decide)).2 "1" vMergedC7 oldStore1
      (by decide) (by decide) (by decide)⟩

/-- C8: after a successful status sync, a store's last-transition time is
carried over unchanged exactly when its health state is unchanged, and is
set to the current time when the state changed or the store is newly
observed. -/
theorem transition_time_only_on_state_change (env : Env) (tc : TikvCluster)
    (set : StatefulSetL) (tcR : TikvCluster)
    (h : syncTikvClusterStatus env tc (some set) = (.ok, tcR)) :
    ∀ id v, lookupKey tcR.status.tikv.stores id = some v →
      (∀ old, lookupKey tc.status.tikv.stores id = some old →
        (v.state = old.state → v.lastTransitionTime = old.lastTransitionTime) ∧
        (v.state ≠ old.state → v.lastTransitionTime = env.now)) ∧
      (lookupKey tc.status.tikv.stores id = none → v.lastTransitionTime = env.now) := by
  intro id v hv
  obtain ⟨sl, tl, hs, ht, hstores, -, -, -⟩ := syncTikvClusterStatus_ok_inv env tc set tcR h
  rw [hstores] at hv
  rcases buildStores_lookup_spec _ _ _ _ _ _ _ _ hv with
    ⟨s, hsmem, st, hget, hid, hveq⟩ | hacc
  · subst hveq
    have hstate := mergeStoreStatus_state env.now tc.status.tikv.stores st
    constructor
    · intro old hold
      have hl : lookupKey tc.status.tikv.stores st.id = some old := by rw [hid]; exact hold
      have htr := mergeStoreStatus_transition_known env.now tc.status.tikv.stores st old hl
      constructor
      · intro hse
        rw [htr, if_pos]
        rw [hstate] at hse
        exact hse
      · intro hsne
        rw [htr, if_neg]
        intro hc
        apply hsne
        rw [hstate]
        exact hc
    · intro hnone
      have hl : lookupKey tc.status.tikv.stores st.id = none := by rw [hid]; exact hnone
      exact mergeStoreStatus_transition_new env.now tc.status.tikv.stores st hl
  · simp [lookupKey] at hacc

/-- Witness for `transition_time_only_on_state_change`: store `1` stays
`Up`, so its transition time 42 is carried over. -/
theorem transition_time_only_on_state_change_witness :
    (vMergedC7.state = oldStore1.state →
      vMergedC7.lastTransitionTime = oldStore1.lastTransitionTime) ∧
    (vMergedC7.state ≠ oldStore1.state → vMergedC7.lastTransitionTime = envC7.now) :=
  (transition_time_only_on_state_change envC7 tcC7 newSetBase tcRC7 (by decide) "1"
      vMergedC7 (by decide)).1 oldStore1 (by decide)

/-! ### C10: strategy resolution -/

/-- C10: the component-level config-update strategy, when set, overrides
the cluster-level one; an empty resolved strategy yields `InPlace`; the
accessor never returns the empty strategy. -/
theorem configUpdateStrategy_resolution :
    (∀ clusterStrategy s, s ≠ "" →
      ConfigUpdateStrategy clusterStrategy (some s) = s) ∧
    (∀ clusterStrategy, clusterStrategy ≠ "" →
      ConfigUpdateStrategy clusterStrategy none = clusterStrategy) ∧
    (∀ clusterStrategy,
      ConfigUpdateStrategy clusterStrategy (some "") = ConfigUpdateStrategyInPlace) ∧
    ConfigUpdateStrategy "" none = ConfigUpdateStrategyInPlace ∧
    (∀ clusterStrategy componentStrategy,
      ConfigUpdateStrategy clusterStrategy componentStrategy ≠ "") := by
  refine ⟨?_, ?_, ?_, ?_, ?_⟩
  · intro cs s hs
    simp [ConfigUpdateStrategy, hs]
  · intro cs h
    simp [ConfigUpdateStrategy, h]
  · intro cs
    simp [ConfigUpdateStrategy]
  · simp [ConfigUpdateStrategy]
  · intro cs co
    unfold ConfigUpdateStrategy
    cases co with
    | none =>
      dsimp only
      by_cases h : cs = ""
      · rw [if_pos h]; decide
      · rw [if_neg h]; exact h
    | some s =>
      dsimp only
      by_cases h : s = ""
      · rw [if_pos h]; decide
      · rw [if_neg h]; exact h

/-- Witness for `configUpdateStrategy_resolution` at concrete strategies. -/
theorem configUpdateStrategy_resolution_witness :
    ConfigUpdateStrategy "RollingUpdate" (some "InPlace") = "InPlace" ∧
    ConfigUpdateStrategy "RollingUpdate" none = "RollingUpdate" :=
  ⟨configUpdateStrategy_resolution.1 "RollingUpdate" "InPlace" (by decide),
   configUpdateStrategy_resolution.2.1 "RollingUpdate" (by decide)⟩

/-! ### C4: not-ready short circuit -/

/-- C4: when the placement service's bootstrap member is not available,
`Sync` returns the explicit requeue signal with an empty action trace — no
statefulset, config object, or service is created or updated. -/
theorem pd_unavailable_requeues_without_writes (env : Env) (tc : TikvCluster)
    (h : pdIsAvailable tc = false) :
    Sync env tc = ⟨.requeue, tc, []⟩ := by
  simp [Sync, h]

def tcPdDown : TikvCluster :=
  { tcBase with status := { tcBase.status with pdAvailable := false } }

/-- Witness for `pd_unavailable_requeues_without_writes`. -/
theorem pd_unavailable_requeues_witness :
    Sync envBase tcPdDown = ⟨.requeue, tcPdDown, []⟩ :=
  pd_unavailable_requeues_without_writes envBase tcPdDown (by decide)

/-! ### C2: per-store failures during label propagation -/

def pod1 : PodL :=
  { name := "basic-tikv-0", nodeName := "node-a", hostIP := "10.0.0.1", labels := [] }

/-- Environment for the C2 counterexample: one owned store whose hosting
pod is absent from the pod cache. -/
def envC2 : Env :=
  { envBase with
    oldSetResult := .ok (some newSetBase)
    getStores := .ok [storeInfo1]
    getConfigLocationLabels := .ok (some ["zone"]) }

/-- C2 counterexample: a single store whose hosting pod cannot be resolved
makes `setStoreLabelsForTiKV` return an error, and that error fails the
statefulset sync and the whole `Sync` cycle — contradicting the claim that
any single-store failure is merely logged and skipped. -/
theorem label_pod_failure_blocks_cycle_cx :
    (setStoreLabelsForTiKV envC2 tcBase).fst = .error () ∧
    (syncStatefulSetForTikvCluster envC2 tcBase).res = .err ∧
    (Sync envC2 tcBase).res = .err := by decide

/-- C2 amended: with every owned store's hosting pod resolvable, label
propagation never fails — missing node labels, empty label sets, and
failed label pushes are each skipped (the store loop). -/
theorem label_loop_per_store_failures_skipped (env : Env) (tc : TikvCluster)
    (locationLabels : List String) (stores : List StoreInfo) (n : Nat)
    (hpods : ∀ s ∈ stores, ∀ st, getTiKVStore s = some st →
      skipStore tc.name tc.ns s = false → (lookupKey env.pods st.podName).isSome) :
    ∃ m tr, setStoreLabelsLoop env tc locationLabels stores n = (.ok m, tr) := by
  induction stores generalizing n with
  | nil => exact ⟨n, [], rfl⟩
  | cons s rest ih =>
    have hpods' : ∀ s1 ∈ rest, ∀ st, getTiKVStore s1 = some st →
        skipStore tc.name tc.ns s1 = false → (lookupKey env.pods st.podName).isSome :=
      fun s1 hs1 => hpods s1 (List.mem_cons_of_mem _ hs1)
    unfold setStoreLabelsLoop
    by_cases hskip : skipStore tc.name tc.ns s = true
    · simp only [hskip, ite_true]
      exact ih n hpods'
    · simp only [Bool.not_eq_true] at hskip
      simp only [hskip, Bool.false_eq_true, ite_false]
      cases hget : getTiKVStore s with
      | none =>
        cases hstore : s.store <;> exact ih n hpods'
      | some status =>
        cases hstore : s.store with
        | none =>
          exfalso
          unfold getTiKVStore at hget
          rw [hstore] at hget
          cases hget
        | some meta =>
          dsimp only
          have hsome := hpods s (List.mem_cons_self _ _) status hget hskip
          cases hpod : lookupKey env.pods status.podName with
          | none => rw [hpod] at hsome; simp at hsome
          | some pod =>
            dsimp only
            cases hnl : getNodeLabels env pod.nodeName locationLabels with
            | none => exact ih n hpods'
            | some ls =>
              by_cases hemp : ls.isEmpty = true
              · simp only [hemp, ite_true]
                exact ih n hpods'
              · simp only [Bool.not_eq_true] at hemp
                simp only [hemp, Bool.false_eq_true, ite_false]
                by_cases heqls : storeLabelsEqualNodeLabels meta.labels ls = true
                · simp only [heqls, ite_true]
                  exact ih n hpods'
                · simp only [Bool.not_eq_true] at heqls
                  simp only [heqls, Bool.false_eq_true, ite_false]
                  cases hres : env.setStoreLabelsResult meta.id ls with
                  | error e =>
                    obtain ⟨m, tr, heq⟩ := ih n hpods'
                    exact ⟨m, .setStoreLabels meta.id ls :: tr, by dsimp only; rw [heq]⟩
                  | ok setb =>
                    obtain ⟨m, tr, heq⟩ := ih (if setb then n + 1 else n) hpods'
                    exact ⟨m, .setStoreLabels meta.id ls :: tr, by dsimp only; rw [heq]⟩

/-- C2 amended (lifted): `setStoreLabelsForTiKV` succeeds — no single
store's missing node labels or failed label push fails label propagation
or the cycle — whenever every owned store's hosting pod resolves. -/
theorem label_per_store_failures_skipped (env : Env) (tc : TikvCluster)
    (storesInfo : List StoreInfo) (locationLabels : Option (List String))
    (hs : env.getStores = .ok storesInfo)
    (hc : env.getConfigLocationLabels = .ok locationLabels)
    (hpods : ∀ s ∈ storesInfo, ∀ st, getTiKVStore s = some st →
      skipStore tc.name tc.ns s = false → (lookupKey env.pods st.podName).isSome) :
    ∃ m tr, setStoreLabelsForTiKV env tc = (.ok m, tr) := by
  unfold setStoreLabelsForTiKV
  rw [hs, hc]
  cases locationLabels with
  | none => exact ⟨0, [], rfl⟩
  | some ll => exact label_loop_per_store_failures_skipped env tc ll storesInfo 0 hpods

/-- Environment for the C2 amended witness: the pod resolves but its node
has no labels and the label push would fail — label propagation still
succeeds. -/
def envC2w : Env :=
  { envBase with
    getStores := .ok [storeInfo1]
    getConfigLocationLabels := .ok (some ["zone"])
    pods := [("basic-tikv-0", pod1)]
    setStoreLabelsResult := fun _ _ => .error () }

/-- Witness for `label_per_store_failures_skipped`. -/
theorem label_per_store_failures_skipped_witness :
    ∃ m tr, setStoreLabelsForTiKV envC2w tcBase = (.ok m, tr) :=
  label_per_store_failures_skipped envC2w tcBase [storeInfo1] (some ["zone"]) rfl rfl
    (by decide)

/-! ### C6: config map naming -/

/-- `tcBase` with a TiKV config; the resolved strategy is `InPlace` (both
levels unset). -/
def tcC6 : TikvCluster :=
  { tcBase with
    spec :=
      { tcBase.spec with
        tikv := { tcBase.spec.tikv with config := some "raw-config" } } }

/-- The config map `getTikVConfigMap` renders for `tcC6`. -/
def cmC6 : ConfigMapL :=
  { name := "basic-tikv"
    ns := "default"
    labels := labelsTikv "basic"
    data := [("config-file", "raw-config"), ("startup-script", "start-script-http")] }

/-- C6 counterexample: the resolved strategy is `InPlace` and no workload
set exists (so no config map is mounted); the synthesized config object
keeps the plain member name — it is not digest-suffixed, contrary to the
claim's "otherwise" arm. -/
theorem configmap_inplace_plain_name_cx :
    tcC6.tikvConfigUpdateStrategy = ConfigUpdateStrategyInPlace ∧
    (syncTiKVConfigMap envBase tcC6 none).snd.fst = some cmC6 ∧
    cmC6.name ≠ (addConfigMapDigestSuffix cmC6).name := by decide

/-- C6 amended: under `InPlace` with a mounted member-prefixed config map
the mounted name is reused; under `RollingUpdate` the name is the
digest-suffixed member name; under `InPlace` with no workload set or no
mounted match the name is the plain member name. -/
theorem configmap_naming_resolution (env : Env) (tc : TikvCluster)
    (setOpt : Option StatefulSetL) (conf : String) (cm : ConfigMapL) (acts : List Action)
    (hconf : tc.spec.tikv.config = some conf)
    (hcm : syncTiKVConfigMap env tc setOpt = (.ok, some cm, acts)) :
    (∀ set, setOpt = some set →
      tc.tikvConfigUpdateStrategy = ConfigUpdateStrategyInPlace →
      findConfigMapVolume set.template
          (fun n => strStartsWith n (tikvMemberName tc.name)) ≠ "" →
      cm.name = findConfigMapVolume set.template
          (fun n => strStartsWith n (tikvMemberName tc.name))) ∧
    (tc.tikvConfigUpdateStrategy = ConfigUpdateStrategyRollingUpdate →
      cm.name = tikvMemberName tc.name ++ "-" ++ toString (dataDigest
        [("config-file", conf),
         ("startup-script", renderStartScript tc.spec.tlsEnabled)])) ∧
    (tc.tikvConfigUpdateStrategy = ConfigUpdateStrategyInPlace → setOpt = none →
      cm.name = tikvMemberName tc.name) ∧
    (∀ set, setOpt = some set →
      tc.tikvConfigUpdateStrategy = ConfigUpdateStrategyInPlace →
      findConfigMapVolume set.template
          (fun n => strStartsWith n (tikvMemberName tc.name)) = "" →
      cm.name = tikvMemberName tc.name) := by
  unfold syncTiKVConfigMap getTikVConfigMap at hcm
  rw [hconf] at hcm
  dsimp only at hcm
  by_cases hrs : tc.tikvConfigUpdateStrategy = ConfigUpdateStrategyRollingUpdate
  · have hnotip : ¬ tc.tikvConfigUpdateStrategy = ConfigUpdateStrategyInPlace := by
      rw [hrs]; decide
    rw [if_pos hrs] at hcm
    cases setOpt with
    | none =>
      dsimp only at hcm
      cases hcr : env.createCmResult with
      | error e => rw [hcr] at hcm; simp at hcm
      | ok u =>
        rw [hcr] at hcm
        simp only [Prod.mk.injEq, Option.some.injEq] at hcm
        obtain ⟨-, hcmeq, -⟩ := hcm
        subst hcmeq
        refine ⟨?_, ?_, ?_, ?_⟩
        · intro set hset
          cases hset
        · intro _
          rfl
        · intro hip
          exact absurd hip hnotip
        · intro set hset hip
          exact absurd hip hnotip
    | some set =>
      dsimp only at hcm
      rw [if_neg hnotip] at hcm
      cases hcr : env.createCmResult with
      | error e => rw [hcr] at hcm; simp at hcm
      | ok u =>
        rw [hcr] at hcm
        simp only [Prod.mk.injEq, Option.some.injEq] at hcm
        obtain ⟨-, hcmeq, -⟩ := hcm
        subst hcmeq
        refine ⟨?_, ?_, ?_, ?_⟩
        · intro set1 hset1 hip
          exact absurd hip hnotip
        · intro _
          rfl
        · intro hip
          exact absurd hip hnotip
        · intro set1 hset1 hip
          exact absurd hip hnotip
  · rw [if_neg hrs] at hcm
    cases setOpt with
    | none =>
      dsimp only at hcm
      cases hcr : env.createCmResult with
      | error e => rw [hcr] at hcm; simp at hcm
      | ok u =>
        rw [hcr] at hcm
        simp only [Prod.mk.injEq, Option.some.injEq] at hcm
        obtain ⟨-, hcmeq, -⟩ := hcm
        subst hcmeq
        refine ⟨?_, ?_, ?_, ?_⟩
        · intro set hset
          cases hset
        · intro hrr
          exact absurd hrr hrs
        · intro _ _
          rfl
        · intro set hset
          cases hset
    | some set =>
      dsimp only at hcm
      by_cases hip : tc.tikvConfigUpdateStrategy = ConfigUpdateStrategyInPlace
      · rw [if_pos hip] at hcm
        by_cases hfind : findConfigMapVolume set.template
            (fun n => strStartsWith n (tikvMemberName tc.name)) ≠ ""
        · rw [if_pos hfind] at hcm
          cases hcr : env.createCmResult with
          | error e => rw [hcr] at hcm; simp at hcm
          | ok u =>
            rw [hcr] at hcm
            simp only [Prod.mk.injEq, Option.some.injEq] at hcm
            obtain ⟨-, hcmeq, -⟩ := hcm
            subst hcmeq
            refine ⟨?_, ?_, ?_, ?_⟩
            · intro set1 hset1 _ _
              cases hset1
              rfl
            · intro hrr
              exact absurd hrr hrs
            · intro _ hn
              cases hn
            · intro set1 hset1 _ hfind1
              cases hset1
              exact absurd hfind1 hfind
        · rw [if_neg hfind] at hcm
          simp only [Decidable.not_not] at hfind
          cases hcr : env.createCmResult with
          | error e => rw [hcr] at hcm; simp at hcm
          | ok u =>
            rw [hcr] at hcm
            simp only [Prod.mk.injEq, Option.some.injEq] at hcm
            obtain ⟨-, hcmeq, -⟩ := hcm
            subst hcmeq
            refine ⟨?_, ?_, ?_, ?_⟩
            · intro set1 hset1 _ hfind1
              cases hset1
              exact absurd hfind hfind1
            · intro hrr
              exact absurd hrr hrs
            · intro _ hn
              cases hn
            · intro set1 hset1 _ _
              cases hset1
              rfl
      · rw [if_neg hip] at hcm
        cases hcr : env.createCmResult with
        | error e => rw [hcr] at hcm; simp at hcm
        | ok u =>
          rw [hcr] at hcm
          simp only [Prod.mk.injEq, Option.some.injEq] at hcm
          obtain ⟨-, hcmeq, -⟩ := hcm
          subst hcmeq
          refine ⟨?_, ?_, ?_, ?_⟩
          · intro set1 hset1 hip1
            exact absurd hip1 hip
          · intro hrr
            exact absurd hrr hrs
          · intro hip1
            exact absurd hip1 hip
          · intro set1 hset1 hip1
            exact absurd hip1 hip

/-- `tcC6` with the component-level strategy overriding to
`RollingUpdate`. -/
def tcC6r : TikvCluster :=
  { tcC6 with
    spec :=
      { tcC6.spec with
        tikv :=
          { tcC6.spec.tikv with
            componentConfigUpdateStrategy := some "RollingUpdate" } } }

/-- Witness for `configmap_naming_resolution`: under `RollingUpdate` the
name is the digest-suffixed member name. -/
theorem configmap_naming_resolution_witness :
    (addConfigMapDigestSuffix cmC6).name =
      tikvMemberName tcC6r.name ++ "-" ++ toString (dataDigest
        [("config-file", "raw-config"),
         ("startup-script", renderStartScript tcC6r.spec.tlsEnabled)]) :=
  (configmap_naming_resolution envBase tcC6r none "raw-config"
      (addConfigMapDigestSuffix cmC6)
      [Action.createOrUpdateConfigMap (addConfigMapDigestSuffix cmC6)]
      rfl (by decide)).2.1 rfl

/-! ### C1: idempotent bootstrap -/

theorem getNewTiKVSet_ok_shape (tc : TikvCluster) (cm : Option ConfigMapL)
    (s : StatefulSetL) (h : getNewTiKVSetForTikvCluster tc cm = .ok s) :
    s.replicas = tikvStsDesiredReplicas tc ∧
    s.rollingUpdatePartition = tikvStsDesiredReplicas tc := by
  unfold getNewTiKVSetForTikvCluster at h
  cases hp : parseStorageRequest tc.spec.tikv.requests with
  | none => rw [hp] at h; cases h
  | some n =>
    rw [hp] at h
    cases h
    exact ⟨rfl, rfl⟩

theorem syncTiKVConfigMap_trace_shape (env : Env) (tc : TikvCluster)
    (setOpt : Option StatefulSetL) :
    ∀ a ∈ (syncTiKVConfigMap env tc setOpt).snd.snd,
      ∃ c, a = Action.createOrUpdateConfigMap c := by
  unfold syncTiKVConfigMap
  cases getTikVConfigMap tc with
  | none => intro a ha; simp at ha
  | some newCm =>
    dsimp only
    cases setOpt <;> cases env.createCmResult <;>
      · intro a ha
        simp at ha
        exact ⟨_, ha⟩

/-- C1: when the workload set does not exist, the cycle creates it with
both the replica count and the rolling-update partition equal to the
desired replica count, annotates its last applied config, resets the
status workload mirror to the empty placeholder, returns success, and runs
no label propagation, upgrade, scale, failover detection, or final
upsert. -/
theorem bootstrap_create_defers_orchestration (env : Env) (tc : TikvCluster)
    (cm : Option ConfigMapL) (cmTrace : List Action) (newSet : StatefulSetL)
    (hpause : tc.spec.paused = false)
    (hold : env.oldSetResult = .ok none)
    (hcm : syncTiKVConfigMap env tc none = (.ok, cm, cmTrace))
    (hnew : getNewTiKVSetForTikvCluster (recoverIfNeeded env tc) cm = .ok newSet)
    (hcr : env.createSetResult = .ok ()) :
    syncStatefulSetForTikvCluster env tc =
      ⟨.ok,
        withTikvStatus (recoverIfNeeded env tc)
          { (recoverIfNeeded env tc).status.tikv with
            statefulSet := some emptyStatefulSetStatus },
        (cmTrace ++
            (if tc.status.tikv.failureStores.isEmpty then [] else [Action.recover])) ++
          [.createStatefulSet (setStatefulSetLastApplied newSet)]⟩ ∧
    newSet.replicas = tikvStsDesiredReplicas (recoverIfNeeded env tc) ∧
    newSet.rollingUpdatePartition = tikvStsDesiredReplicas (recoverIfNeeded env tc) ∧
    (setStatefulSetLastApplied newSet).lastApplied.isSome = true ∧
    (∀ a ∈ (syncStatefulSetForTikvCluster env tc).trace,
      a ≠ .upgrade ∧ a ≠ .scale ∧ a ≠ .failover ∧
      (∀ i ls, a ≠ .setStoreLabels i ls) ∧ (∀ s, a ≠ .updateStatefulSet s)) := by
  have hmain : syncStatefulSetForTikvCluster env tc =
      ⟨.ok,
        withTikvStatus (recoverIfNeeded env tc)
          { (recoverIfNeeded env tc).status.tikv with
            statefulSet := some emptyStatefulSetStatus },
        (cmTrace ++
            (if tc.status.tikv.failureStores.isEmpty then [] else [Action.recover])) ++
          [.createStatefulSet (setStatefulSetLastApplied newSet)]⟩ := by
    simp only [syncStatefulSetForTikvCluster]
    rw [hold]
    dsimp only
    have hstat : syncTikvClusterStatus env tc none = (.ok, tc) := rfl
    rw [hstat]
    dsimp only
    simp only [hpause]
    rw [hcm]
    dsimp only
    simp only [syncSetPostRecover]
    rw [hnew]
    dsimp only
    rw [hcr]
    rfl
  refine ⟨hmain, (getNewTiKVSet_ok_shape _ _ _ hnew).1,
    (getNewTiKVSet_ok_shape _ _ _ hnew).2, rfl, ?_⟩
  intro a ha
  rw [hmain] at ha
  simp only [List.mem_append, List.mem_singleton] at ha
  rcases ha with (ha | ha) | ha
  · obtain ⟨c, rfl⟩ :=
      syncTiKVConfigMap_trace_shape env tc none a (by rw [hcm]; exact ha)
    exact ⟨by simp, by simp, by simp, by simp, by simp⟩
  · by_cases hfe : tc.status.tikv.failureStores.isEmpty = true
    · simp [hfe] at ha
    · simp only [Bool.not_eq_true] at hfe
      simp only [hfe, Bool.false_eq_true, ite_false, List.mem_singleton] at ha
      subst ha
      exact ⟨by simp, by simp, by simp, by simp, by simp⟩
  · subst ha
    exact ⟨by simp, by simp, by simp, by simp, by simp⟩

/-- Witness for `bootstrap_create_defers_orchestration` on `tcBase` with
the empty environment. -/
theorem bootstrap_create_defers_orchestration_witness :
    syncStatefulSetForTikvCluster envBase tcBase =
      ⟨.ok,
        withTikvStatus (recoverIfNeeded envBase tcBase)
          { (recoverIfNeeded envBase tcBase).status.tikv with
            statefulSet := some emptyStatefulSetStatus },
        (([] : List Action) ++
            (if tcBase.status.tikv.failureStores.isEmpty then [] else [Action.recover])) ++
          [.createStatefulSet (setStatefulSetLastApplied newSetBase)]⟩ ∧
    newSetBase.replicas = tikvStsDesiredReplicas (recoverIfNeeded envBase tcBase) ∧
    newSetBase.rollingUpdatePartition =
      tikvStsDesiredReplicas (recoverIfNeeded envBase tcBase) ∧
    (setStatefulSetLastApplied newSetBase).lastApplied.isSome = true ∧
    (∀ a ∈ (syncStatefulSetForTikvCluster envBase tcBase).trace,
      a ≠ .upgrade ∧ a ≠ .scale ∧ a ≠ .failover ∧
      (∀ i ls, a ≠ .setStoreLabels i ls) ∧ (∀ s, a ≠ .updateStatefulSet s)) :=
  bootstrap_create_defers_orchestration envBase tcBase none [] newSetBase rfl rfl
    (by decide) (by decide) rfl

/-! ### Trace shapes of the post-label stages -/

theorem setStoreLabelsLoop_trace_shape (env : Env) (tc : TikvCluster)
    (ll : List String) :
    ∀ (stores : List StoreInfo) (n : Nat),
      ∀ a ∈ (setStoreLabelsLoop env tc ll stores n).snd,
        ∃ i ls, a = Action.setStoreLabels i ls := by
  intro stores
  induction stores with
  | nil =>
    intro n a ha
    simp [setStoreLabelsLoop] at ha
  | cons s rest ih =>
    intro n a ha
    unfold setStoreLabelsLoop at ha
    by_cases hskip : skipStore tc.name tc.ns s = true
    · simp only [hskip, ite_true] at ha
      exact ih n a ha
    · simp only [Bool.not_eq_true] at hskip
      simp only [hskip, Bool.false_eq_true, ite_false] at ha
      cases hg : getTiKVStore s with
      | none =>
        rw [hg] at ha
        cases hsm : s.store <;> rw [hsm] at ha <;> exact ih n a ha
      | some status =>
        cases hsm : s.store with
        | none =>
          rw [hg, hsm] at ha
          exact ih n a ha
        | some meta =>
          rw [hg, hsm] at ha
          dsimp only at ha
          cases hp : lookupKey env.pods status.podName with
          | none => rw [hp] at ha; simp at ha
          | some pod =>
            rw [hp] at ha
            dsimp only at ha
            cases hnl : getNodeLabels env pod.nodeName ll with
            | none => rw [hnl] at ha; exact ih n a ha
            | some ls =>
              rw [hnl] at ha
              dsimp only at ha
              by_cases hemp : ls.isEmpty = true
              · simp only [hemp, ite_true] at ha
                exact ih n a ha
              · simp only [Bool.not_eq_true] at hemp
                simp only [hemp, Bool.false_eq_true, ite_false] at ha
                by_cases heq : storeLabelsEqualNodeLabels meta.labels ls = true
                · simp only [heq, ite_true] at ha
                  exact ih n a ha
                · simp only [Bool.not_eq_true] at heq
                  simp only [heq, Bool.false_eq_true, ite_false] at ha
                  cases hres : env.setStoreLabelsResult meta.id ls with
                  | error e =>
                    rw [hres] at ha
                    dsimp only at ha
                    rcases List.mem_cons.mp ha with rfl | htail
                    · exact ⟨meta.id, ls, rfl⟩
                    · exact ih n a htail
                  | ok setb =>
                    rw [hres] at ha
                    dsimp only at ha
                    rcases List.mem_cons.mp ha with rfl | htail
                    · exact ⟨meta.id, ls, rfl⟩
                    · exact ih _ a htail

theorem setStoreLabelsForTiKV_trace_shape (env : Env) (tc : TikvCluster) :
    ∀ a ∈ (setStoreLabelsForTiKV env tc).snd,
      ∃ i ls, a = Action.setStoreLabels i ls := by
  unfold setStoreLabelsForTiKV
  cases env.getStores with
  | error e => intro a ha; simp at ha
  | ok stores =>
    dsimp only
    cases env.getConfigLocationLabels with
    | error e => intro a ha; simp at ha
    | ok llOpt =>
      cases llOpt with
      | none => intro a ha; simp at ha
      | some ll => exact setStoreLabelsLoop_trace_shape env tc ll stores 0

theorem updateStatefulSetL_trace (env : Env) (tc : TikvCluster)
    (newSet oldSet : StatefulSetL) (base : List Action) :
    ∃ tail, (updateStatefulSetL env tc newSet oldSet base).trace = base ++ tail ∧
      Action.recover ∉ tail ∧
      (∀ s, Action.createStatefulSet s ∉ tail) ∧
      (∀ s, Action.updateStatefulSet s ∈ tail → s = mergedSet newSet oldSet) := by
  unfold updateStatefulSetL
  by_cases h : statefulSetSpecEqual newSet oldSet = true
  · simp only [h, ite_true]
    exact ⟨[], by simp, by simp, by simp, by simp⟩
  · simp only [Bool.not_eq_true] at h
    simp only [h, Bool.false_eq_true, ite_false]
    cases env.updateSetResult <;>
      exact ⟨[.updateStatefulSet (mergedSet newSet oldSet)], rfl, by simp, by simp, by simp⟩

theorem syncSetScaleOnward_trace (env : Env) (tc : TikvCluster)
    (newSet oldSet : StatefulSetL) (base : List Action) :
    ∃ tail, (syncSetScaleOnward env tc newSet oldSet base).trace = base ++ tail ∧
      Action.recover ∉ tail ∧
      (∀ s, Action.createStatefulSet s ∉ tail) ∧
      (∀ s, Action.updateStatefulSet s ∈ tail → s = mergedSet newSet oldSet) := by
  unfold syncSetScaleOnward
  cases env.scaleResult with
  | error e => exact ⟨[.scale], rfl, by simp, by simp, by simp⟩
  | ok u =>
    dsimp only
    by_cases hf : env.autoFailover = true ∧ tc.spec.tikv.maxFailoverCount ≠ none ∧
        tiKVAllPodsStarted tc = true ∧ ¬ tiKVAllStoresReady tc = true
    · rw [if_pos hf]
      cases env.failoverResult with
      | error e =>
        refine ⟨[.scale, .failover], by simp, by simp, by simp, by simp⟩
      | ok u2 =>
        obtain ⟨tail, htr, hrec, hcr, hup⟩ :=
          updateStatefulSetL_trace env tc newSet oldSet (base ++ [Action.scale] ++ [Action.failover])
        refine ⟨[Action.scale] ++ [Action.failover] ++ tail, ?_, ?_, ?_, ?_⟩
        · rw [htr]; simp
        · simp only [List.mem_append] at *
          rintro ((h1 | h1) | h1)
          · simp at h1
          · simp at h1
          · exact hrec h1
        · intro s
          simp only [List.mem_append]
          rintro ((h1 | h1) | h1)
          · simp at h1
          · simp at h1
          · exact hcr s h1
        · intro s
          simp only [List.mem_append]
          rintro ((h1 | h1) | h1)
          · simp at h1
          · simp at h1
          · exact hup s h1
    · rw [if_neg hf]
      obtain ⟨tail, htr, hrec, hcr, hup⟩ :=
        updateStatefulSetL_trace env tc newSet oldSet (base ++ [Action.scale])
      refine ⟨[Action.scale] ++ tail, ?_, ?_, ?_, ?_⟩
      · rw [htr]; simp
      · simp only [List.mem_append]
        rintro (h1 | h1)
        · simp at h1
        · exact hrec h1
      · intro s
        simp only [List.mem_append]
        rintro (h1 | h1)
        · simp at h1
        · exact hcr s h1
      · intro s
        simp only [List.mem_append]
        rintro (h1 | h1)
        · simp at h1
        · exact hup s h1

theorem syncSetUpgradeOnward_trace (env : Env) (tc : TikvCluster)
    (newSet oldSet : StatefulSetL) (base : List Action) :
    ∃ tail, (syncSetUpgradeOnward env tc newSet oldSet base).trace = base ++ tail ∧
      Action.recover ∉ tail ∧
      (∀ s, Action.createStatefulSet s ∉ tail) ∧
      (∀ s, Action.updateStatefulSet s ∈ tail → s = mergedSet newSet oldSet) := by
  unfold syncSetUpgradeOnward
  by_cases hcond : ¬ templateEqual newSet oldSet = true ∨ tc.status.tikv.phase = "Upgrade"
  · rw [if_pos hcond]
    cases env.upgradeResult with
    | error e => exact ⟨[.upgrade], rfl, by simp, by simp, by simp⟩
    | ok u =>
      obtain ⟨tail, htr, hrec, hcr, hup⟩ :=
        syncSetScaleOnward_trace env tc newSet oldSet (base ++ [Action.upgrade])
      refine ⟨[Action.upgrade] ++ tail, ?_, ?_, ?_, ?_⟩
      · rw [htr]; simp
      · simp only [List.mem_append]
        rintro (h1 | h1)
        · simp at h1
        · exact hrec h1
      · intro s
        simp only [List.mem_append]
        rintro (h1 | h1)
        · simp at h1
        · exact hcr s h1
      · intro s
        simp only [List.mem_append]
        rintro (h1 | h1)
        · simp at h1
        · exact hup s h1
  · rw [if_neg hcond]
    exact syncSetScaleOnward_trace env tc newSet oldSet base

theorem syncSetPostRecover_trace (env : Env) (tc2 : TikvCluster)
    (cm : Option ConfigMapL) (oldSetOpt : Option StatefulSetL) (base : List Action) :
    ∃ tail, (syncSetPostRecover env tc2 cm oldSetOpt base).trace = base ++ tail ∧
      Action.recover ∉ tail ∧
      (∀ s, Action.createStatefulSet s ∈ tail →
        ∃ ns0, getNewTiKVSetForTikvCluster tc2 cm = .ok ns0 ∧
          s = setStatefulSetLastApplied ns0) ∧
      (∀ s, Action.updateStatefulSet s ∈ tail →
        ∃ ns0 o, oldSetOpt = some o ∧ getNewTiKVSetForTikvCluster tc2 cm = .ok ns0 ∧
          s = mergedSet ns0 o) := by
  unfold syncSetPostRecover
  cases hn : getNewTiKVSetForTikvCluster tc2 cm with
  | error e => exact ⟨[], by simp, by simp, by simp, by simp⟩
  | ok newSet =>
    dsimp only
    cases oldSetOpt with
    | none =>
      cases env.createSetResult with
      | error e =>
        refine ⟨[.createStatefulSet (setStatefulSetLastApplied newSet)], rfl, by simp, ?_, by simp⟩
        intro s hs
        simp at hs
        exact ⟨newSet, rfl, hs⟩
      | ok u =>
        refine ⟨[.createStatefulSet (setStatefulSetLastApplied newSet)], rfl, by simp, ?_, by simp⟩
        intro s hs
        simp at hs
        exact ⟨newSet, rfl, hs⟩
    | some oldSet =>
      rcases hl : setStoreLabelsForTiKV env tc2 with ⟨r, lblTrace⟩
      have hlbl : ∀ a ∈ lblTrace, ∃ i ls, a = Action.setStoreLabels i ls := by
        intro a ha
        exact setStoreLabelsForTiKV_trace_shape env tc2 a (by rw [hl]; exact ha)
      cases r with
      | error e =>
        refine ⟨lblTrace, rfl, ?_, ?_, ?_⟩
        · intro hmem
          obtain ⟨i, ls, h⟩ := hlbl _ hmem
          cases h
        · intro s hmem
          obtain ⟨i, ls, h⟩ := hlbl _ hmem
          cases h
        · intro s hmem
          obtain ⟨i, ls, h⟩ := hlbl _ hmem
          cases h
      | ok m =>
        obtain ⟨tail, htr, hrec, hcr, hup⟩ :=
          syncSetUpgradeOnward_trace env tc2 newSet oldSet (base ++ lblTrace)
        refine ⟨lblTrace ++ tail, ?_, ?_, ?_, ?_⟩
        · rw [htr]; simp
        · simp only [List.mem_append]
          rintro (h1 | h1)
          · obtain ⟨i, ls, h⟩ := hlbl _ h1
            cases h
          · exact hrec h1
        · intro s
          simp only [List.mem_append]
          rintro (h1 | h1)
          · obtain ⟨i, ls, h⟩ := hlbl _ h1
            cases h
          · exact absurd h1 (hcr s)
        · intro s
          simp only [List.mem_append]
          rintro (h1 | h1)
          · obtain ⟨i, ls, h⟩ := hlbl _ h1
            cases h
          · exact ⟨newSet, oldSet, rfl, rfl, hup s h1⟩

/-! ### C9: recovery precedes workload synthesis -/

/-- C9: in a cycle that reaches the failover-recovery step, `Recover` runs
exactly when a failure record exists, it runs before any workload-set
create or update, and the workload set written afterwards is synthesized
from the recovered cluster. -/
theorem recover_runs_before_workload_synthesis (env : Env) (tc : TikvCluster)
    (oldSetOpt : Option StatefulSetL) (tc1 : TikvCluster) (cm : Option ConfigMapL)
    (cmTrace : List Action)
    (hold : env.oldSetResult = .ok oldSetOpt)
    (hst : syncTikvClusterStatus env tc oldSetOpt = (.ok, tc1))
    (hpause : tc1.spec.paused = false)
    (hcm : syncTiKVConfigMap env tc1 oldSetOpt = (.ok, cm, cmTrace)) :
    (tc1.status.tikv.failureStores = [] →
      Action.recover ∉ (syncStatefulSetForTikvCluster env tc).trace) ∧
    (tc1.status.tikv.failureStores ≠ [] →
      ∃ rest, (syncStatefulSetForTikvCluster env tc).trace =
          cmTrace ++ Action.recover :: rest ∧
        (∀ s, Action.createStatefulSet s ∉ cmTrace) ∧
        (∀ s, Action.updateStatefulSet s ∉ cmTrace) ∧
        (∀ s, Action.createStatefulSet s ∈ rest →
          ∃ ns0, getNewTiKVSetForTikvCluster (env.recover tc1) cm = .ok ns0 ∧
            s = setStatefulSetLastApplied ns0) ∧
        (∀ s, Action.updateStatefulSet s ∈ rest →
          ∃ ns0 o, oldSetOpt = some o ∧
            getNewTiKVSetForTikvCluster (env.recover tc1) cm = .ok ns0 ∧
            s = mergedSet ns0 o)) := by
  have hred : syncStatefulSetForTikvCluster env tc =
      syncSetPostRecover env (recoverIfNeeded env tc1) cm oldSetOpt
        (cmTrace ++
          (if tc1.status.tikv.failureStores.isEmpty then [] else [Action.recover])) := by
    simp only [syncStatefulSetForTikvCluster]
    rw [hold]
    dsimp only
    rw [hst]
    dsimp only
    simp only [hpause]
    rw [hcm]
    rfl
  have hcmshape : ∀ a ∈ cmTrace, ∃ c, a = Action.createOrUpdateConfigMap c := by
    intro a ha
    exact syncTiKVConfigMap_trace_shape env tc1 oldSetOpt a (by rw [hcm]; exact ha)
  constructor
  · intro hfe
    have hemp : tc1.status.tikv.failureStores.isEmpty = true := by rw [hfe]; rfl
    rw [hred]
    obtain ⟨tail, htr, hrec, -, -⟩ :=
      syncSetPostRecover_trace env (recoverIfNeeded env tc1) cm oldSetOpt
        (cmTrace ++
          (if tc1.status.tikv.failureStores.isEmpty then [] else [Action.recover]))
    rw [htr]
    simp only [hemp, ite_true, List.append_nil, List.mem_append]
    rintro (hin | hin)
    · obtain ⟨c, h⟩ := hcmshape _ hin
      cases h
    · exact hrec hin
  · intro hne
    have hemp : tc1.status.tikv.failureStores.isEmpty = false := by
      cases hl : tc1.status.tikv.failureStores with
      | nil => exact absurd hl hne
      | cons p ps => rfl
    have hrecov : recoverIfNeeded env tc1 = env.recover tc1 := by
      unfold recoverIfNeeded
      rw [hemp]
      rfl
    rw [hred, hrecov] at *
    obtain ⟨tail, htr, hrec, hcr, hup⟩ :=
      syncSetPostRecover_trace env (env.recover tc1) cm oldSetOpt
        (cmTrace ++
          (if tc1.status.tikv.failureStores.isEmpty then [] else [Action.recover]))
    refine ⟨tail, ?_, ?_, ?_, hcr, hup⟩
    · rw [htr]
      simp only [hemp, Bool.false_eq_true, ite_false]
      simp
    · intro s hmem
      obtain ⟨c, h⟩ := hcmshape _ hmem
      cases h
    · intro s hmem
      obtain ⟨c, h⟩ := hcmshape _ hmem
      cases h

/-! Fixtures for the C9 witness: one failure record, workload present. -/

def fsRec : FailureStoreL := { podName := "basic-tikv-1", storeID := "9", createdAt := 5 }

def tcC9 : TikvCluster :=
  { tcBase with
    status :=
      { tcBase.status with
        tikv := { tcBase.status.tikv with failureStores := [("9", fsRec)] } } }

def envC9 : Env := { envBase with oldSetResult := .ok (some newSetBase) }

def tc1C9 : TikvCluster := (syncTikvClusterStatus envC9 tcC9 (some newSetBase)).snd

/-- Witness for `recover_runs_before_workload_synthesis`: a cluster with
one failure record runs `Recover` before the workload-set write. -/
theorem recover_runs_before_workload_synthesis_witness :
    ∃ rest, (syncStatefulSetForTikvCluster envC9 tcC9).trace =
        ([] : List Action) ++ Action.recover :: rest ∧
      (∀ s, Action.createStatefulSet s ∉ ([] : List Action)) ∧
      (∀ s, Action.updateStatefulSet s ∉ ([] : List Action)) ∧
      (∀ s, Action.createStatefulSet s ∈ rest →
        ∃ ns0, getNewTiKVSetForTikvCluster (envC9.recover tc1C9) none = .ok ns0 ∧
          s = setStatefulSetLastApplied ns0) ∧
      (∀ s, Action.updateStatefulSet s ∈ rest →
        ∃ ns0 o, (some newSetBase : Option StatefulSetL) = some o ∧
          getNewTiKVSetForTikvCluster (envC9.recover tc1C9) none = .ok ns0 ∧
          s = mergedSet ns0 o) :=
  (recover_runs_before_workload_synthesis envC9 tcC9 (some newSetBase) tc1C9 none []
    rfl (by decide) (by decide) (by decide)).2 (by decide)

/-! ### C5: paused clusters -/

theorem syncTikvClusterStatus_spec (env : Env) (tc : TikvCluster)
    (setOpt : Option StatefulSetL) :
    (syncTikvClusterStatus env tc setOpt).snd.spec = tc.spec := by
  unfold syncTikvClusterStatus
  cases setOpt with
  | none => rfl
  | some set =>
    dsimp only
    cases tikvStatefulSetIsUpgrading env set
        (withTikvStatus tc { tc.status.tikv with statefulSet := some set.status }) with
    | error e => simp [withTikvStatus]
    | ok u =>
      dsimp only
      cases env.getStores with
      | error e => simp [withTikvStatus]
      | ok sl =>
        dsimp only
        cases env.getTombStones with
        | error e => simp [withTikvStatus]
        | ok tl => simp [withTikvStatus]

theorem listenersSvcs_ok (env : Env) (tc : TikvCluster) (pods : List PodL)
    (hpods : env.tikvPodsList = .ok pods) :
    ∀ ls, ∃ svcs, listenersSvcs env tc ls = .ok svcs := by
  intro ls
  induction ls with
  | nil => exact ⟨[], rfl⟩
  | cons l rest ih =>
    unfold listenersSvcs
    by_cases hm : l.accessMethod = "NodePort"
    · rw [if_pos hm, hpods]
      dsimp only
      obtain ⟨svcs, hsv⟩ := ih
      rw [hsv]
      exact ⟨_, rfl⟩
    · rw [if_neg hm]
      exact ih

theorem syncServices_paused (env : Env) (tc : TikvCluster)
    (hp : tc.spec.paused = true) :
    ∀ l tr, syncServices env tc l tr = ⟨.ok, tc, tr⟩ := by
  intro l
  induction l with
  | nil => intro tr; rfl
  | cons s rest ih =>
    intro tr
    have hsvc : syncServiceForTikvCluster env tc s = (.ok, []) := by
      unfold syncServiceForTikvCluster
      rw [hp]
      rfl
    unfold syncServices
    rw [hsvc]
    dsimp only
    rw [List.append_nil]
    exact ih tr

/-- C5: on a paused cluster whose workload set exists, `Sync` still
updates the cluster status from the observed workload object and both
store listings, succeeds, and issues no write at all (empty action
trace). -/
theorem paused_cycle_updates_status_without_writes (env : Env) (tc : TikvCluster)
    (set : StatefulSetL) (sl tl : List StoreInfo) (pods : List PodL) (u : Bool)
    (hpd : pdIsAvailable tc = true)
    (hpause : tc.spec.paused = true)
    (hold : env.oldSetResult = .ok (some set))
    (hup : tikvStatefulSetIsUpgrading env set
      (withTikvStatus tc { tc.status.tikv with statefulSet := some set.status }) = .ok u)
    (hs : env.getStores = .ok sl) (ht : env.getTombStones = .ok tl)
    (hpods : env.tikvPodsList = .ok pods) :
    Sync env tc = ⟨.ok, (syncTikvClusterStatus env tc (some set)).snd, []⟩ ∧
    (syncTikvClusterStatus env tc (some set)).snd.status.tikv.statefulSet =
      some set.status ∧
    (syncTikvClusterStatus env tc (some set)).snd.status.tikv.synced = true ∧
    (syncTikvClusterStatus env tc (some set)).snd.status.tikv.stores =
      buildStores tc.name tc.ns env.now tc.status.tikv.stores sl [] ∧
    (syncTikvClusterStatus env tc (some set)).snd.status.tikv.tombstoneStores =
      buildTombstoneStores tc.name tc.ns tl [] := by
  have hfst : (syncTikvClusterStatus env tc (some set)).fst = .ok := by
    simp only [syncTikvClusterStatus]
    rw [hup]
    dsimp only
    rw [hs]
    dsimp only
    rw [ht]
  have hpair : syncTikvClusterStatus env tc (some set) =
      (.ok, (syncTikvClusterStatus env tc (some set)).snd) := by
    rw [← hfst]
  have hTspec : (syncTikvClusterStatus env tc (some set)).snd.spec = tc.spec :=
    syncTikvClusterStatus_spec env tc (some set)
  have hTp : (syncTikvClusterStatus env tc (some set)).snd.spec.paused = true := by
    rw [hTspec]
    exact hpause
  have hsts : syncStatefulSetForTikvCluster env tc =
      ⟨.ok, (syncTikvClusterStatus env tc (some set)).snd, []⟩ := by
    simp only [syncStatefulSetForTikvCluster]
    rw [hold]
    dsimp only
    rw [hpair]
    dsimp only
    rw [hTp]
    rfl
  obtain ⟨sl1, tl1, hs1, ht1, hstores, htomb, hsynced, hmirror⟩ :=
    syncTikvClusterStatus_ok_inv env tc set _ hpair
  rw [hs] at hs1
  rw [ht] at ht1
  cases hs1
  cases ht1
  refine ⟨?_, hmirror, hsynced, hstores, htomb⟩
  unfold Sync
  rw [hpd]
  dsimp only
  rw [hsts]
  dsimp only
  obtain ⟨svcs, hsv⟩ :=
    listenersSvcs_ok env (syncTikvClusterStatus env tc (some set)).snd pods hpods
      tc.spec.tikv.externalListeners
  rw [hsv]
  dsimp only
  exact syncServices_paused env _ hTp _ _

def tcC5 : TikvCluster :=
  { tcBase with spec := { tcBase.spec with paused := true } }

def envC5 : Env := { envBase with oldSetResult := .ok (some newSetBase) }

/-- Witness for `paused_cycle_updates_status_without_writes`. -/
theorem paused_cycle_updates_status_witness :
    Sync envC5 tcC5 = ⟨.ok, (syncTikvClusterStatus envC5 tcC5 (some newSetBase)).snd, []⟩ ∧
    (syncTikvClusterStatus envC5 tcC5 (some newSetBase)).snd.status.tikv.statefulSet =
      some newSetBase.status ∧
    (syncTikvClusterStatus envC5 tcC5 (some newSetBase)).snd.status.tikv.synced = true ∧
    (syncTikvClusterStatus envC5 tcC5 (some newSetBase)).snd.status.tikv.stores =
      buildStores tcC5.name tcC5.ns envC5.now tcC5.status.tikv.stores [] [] ∧
    (syncTikvClusterStatus envC5 tcC5 (some newSetBase)).snd.status.tikv.tombstoneStores =
      buildTombstoneStores tcC5.name tcC5.ns [] [] :=
  paused_cycle_updates_status_without_writes envC5 tcC5 newSetBase [] [] [] false
    rfl rfl rfl (by decide) rfl rfl rfl

end TikvOperator
